import Mathlib

/-!
Verification development for the Azure Document Intelligence tax-form
extraction service (src/lib/azure-document-intelligence-service.ts).

The TypeScript source is shallowly embedded:
* JS numbers are modelled as JNum (a rational for finite values, plus
  infinities and NaN); float rounding/overflow is not modelled, which is
  faithful here because the code only parses literals and never computes.
* JS objects used as string-keyed records are modelled as functions
  String to Option Value (absent key = undefined).
* The provider field map (document.fields, with fields whose .value is
  defined) is modelled as an association list of (name, value).
* Each JS regex used by the source is transliterated into an executable
  backtracking matcher over List Char written in continuation-passing
  style: greedy pieces try the longer alternative first, lazy pieces the
  shorter one, alternations in order, and the scan driver tries match
  start positions left to right (leftmost match), which is exactly the
  JS regex search order for the constructs these patterns use.
  Whitespace classes are the ASCII part of the JS classes.
-/

/-- JS number: finite rational, signed infinity, or NaN. -/
inductive JNum where
  | fin (q : ℚ)
  | inf (pos : Bool)
  | nan
deriving DecidableEq, Repr

/-- Truthiness of a JS number: 0 and NaN are falsy. -/
def JNum.truthy : JNum → Bool
  | .fin q => q ≠ 0
  | .inf _ => true
  | .nan => false

/-- isNaN. -/
def JNum.isNaN : JNum → Bool
  | .nan => true
  | _ => false

/-- The comparison n > 0 on JS numbers (NaN compares false). -/
def JNum.gtZero : JNum → Bool
  | .fin q => 0 < q
  | .inf p => p
  | .nan => false

/-- ASCII decimal digit. -/
def isDigitA (c : Char) : Bool := 48 ≤ c.toNat && c.toNat ≤ 57

/-- ASCII uppercase letter (the class A-Z without the i flag). -/
def isUpperA (c : Char) : Bool := 65 ≤ c.toNat && c.toNat ≤ 90

/-- ASCII lowercase letter. -/
def isLowerA (c : Char) : Bool := 97 ≤ c.toNat && c.toNat ≤ 122

/-- ASCII letter (the class A-Z under the i flag). -/
def isAlphaA (c : Char) : Bool := isUpperA c || isLowerA c

/-- ASCII part of the JS whitespace class used by the source's regexes. -/
def isWsA (c : Char) : Bool :=
  c = ' ' || c = '\t' || c = '\n' || c = '\r' || c = '\x0b' || c = '\x0c'

/-- JS regex word character (for word boundaries). -/
def isWordA (c : Char) : Bool := isAlphaA c || isDigitA c || c = '_'

/-- Numeric value of a list of ASCII digits. -/
def digitsToNat (ds : List Char) : Nat :=
  ds.foldl (fun acc c => 10 * acc + (c.toNat - 48)) 0

/-- Exact rational value of a decimal literal: sign, integer digits,
    fraction digits, exponent sign and exponent digits.  Built with
    mkRat over integer arithmetic (kernel-computable). -/
def decLiteralVal (neg : Bool) (intD fracD : List Char) (epos : Bool) (eD : List Char) : ℚ :=
  let mant : Nat := digitsToNat (intD ++ fracD)
  let num : Int := if neg then -(mant : Int) else (mant : Int)
  if epos then mkRat (num * (10 : Int) ^ digitsToNat eD) ((10 : Nat) ^ fracD.length)
  else mkRat num ((10 : Nat) ^ (fracD.length + digitsToNat eD))

/-- Sign and digits of an exponent body. -/
def parseExpDigits (r : List Char) : Bool × List Char :=
  match r with
  | '+' :: r2 => (true, r2.takeWhile isDigitA)
  | '-' :: r2 => (false, r2.takeWhile isDigitA)
  | _ => (true, r.takeWhile isDigitA)

/-- Parse the optional exponent part accepted by JS float literals
    (e or E, optional sign, at least one digit; otherwise ignored). -/
def parseExpPart (cs : List Char) : Bool × List Char :=
  match cs with
  | 'e' :: r => parseExpDigits r
  | 'E' :: r => parseExpDigits r
  | _ => (true, [])

/-- Parse the unsigned part of a JS float literal prefix. -/
def parseFloatUnsigned (neg : Bool) (cs : List Char) : JNum :=
  if cs.take 8 = "Infinity".data then .inf (!neg)
  else
    let intD := cs.takeWhile isDigitA
    let r1 := cs.drop intD.length
    let fracD := match r1 with
      | '.' :: r2 => r2.takeWhile isDigitA
      | _ => []
    let r3 := match r1 with
      | '.' :: r2 => r2.drop fracD.length
      | _ => r1
    if intD = [] && fracD = [] then .nan
    else
      let e := parseExpPart r3
      .fin (decLiteralVal neg intD fracD e.1 e.2)

/-- JS parseFloat: skip leading whitespace, optional sign, then the
    longest float-literal prefix; NaN when no literal is present. -/
def parseFloatJS (s : String) : JNum :=
  let cs := s.data.dropWhile isWsA
  match cs with
  | '+' :: r => parseFloatUnsigned false r
  | '-' :: r => parseFloatUnsigned true r
  | _ => parseFloatUnsigned false cs

/-- value.replace removing dollar signs, commas and whitespace
    (the regex [$,\s] with the g flag). -/
def cleanAmount (s : String) : String :=
  ⟨s.data.filter (fun c => !(c = '$' || c = ',' || isWsA c))⟩

/-- A defined JS value flowing through the extraction records: a number,
    a string, or any other defined shape (carrying only its truthiness). -/
inductive Value where
  | num (n : JNum)
  | str (s : String)
  | other (truthy : Bool)
deriving DecidableEq, Repr

/-- JS truthiness of a defined value. -/
def Value.jsTruthy : Value → Bool
  | .num n => n.truthy
  | .str s => s ≠ ""
  | .other t => t

/-- parseAmount on a defined value (source lines 365-373): numbers pass
    through unchanged; strings are cleaned and parsed, with NaN mapped
    to 0; any other shape yields 0. -/
def parseAmountV (v : Value) : JNum :=
  match v with
  | .num n => n
  | .str s =>
      let parsed := parseFloatJS (cleanAmount s)
      if parsed.isNaN then .fin 0 else parsed
  | .other _ => .fin 0

/-- parseAmount on a possibly-undefined argument (undefined yields 0). -/
def parseAmount (o : Option Value) : JNum :=
  match o with
  | none => .fin 0
  | some v => parseAmountV v

/-- An ExtractedFieldData record: string keys to defined values,
    absent key meaning undefined. -/
def Rec' := String → Option Value

/-- The empty record. -/
def emptyRec : Rec' := fun _ => none

/-- Record lookup. -/
def rget (r : Rec') (k : String) : Option Value := r k

/-- Record assignment data[k] = v. -/
def rset (r : Rec') (k : String) (v : Value) : Rec' :=
  fun k2 => if k2 = k then some v else r k2

/-- Truthiness of data[k] (undefined is falsy). -/
def truthyAt (r : Rec') (k : String) : Bool :=
  match rget r k with
  | some v => v.jsTruthy
  | none => false

/-- The provider field map: names of fields whose value is defined,
    with that value. -/
def FieldMap := List (String × Value)

/-- fields[name]?.value, defined iff the field exists with a defined value. -/
def fget (f : FieldMap) (k : String) : Option Value :=
  match List.find? (fun p => p.1 = k) f with
  | some p => some p.2
  | none => none

theorem rget_rset_eq (r : Rec') (k : String) (v : Value) : rget (rset r k v) k = some v := by
  simp [rget, rset]

theorem rget_rset_ne (r : Rec') (k k' : String) (v : Value) (h : k' ≠ k) :
    rget (rset r k v) k' = rget r k' := by
  simp [rget, rset, h]

/-! ### Backtracking regex matchers (continuation-passing style)

Every matcher takes the remaining input and a continuation and returns
the first success in JS backtracking order.  A capture is recovered as
the slice consumed by the wrapped sub-matcher. -/

/-- Uppercase counterpart of a lowercase ASCII letter (identity otherwise). -/
def upOf (c : Char) : Char :=
  match c with
  | 'a' => 'A' | 'b' => 'B' | 'c' => 'C' | 'd' => 'D' | 'e' => 'E' | 'f' => 'F'
  | 'g' => 'G' | 'h' => 'H' | 'i' => 'I' | 'j' => 'J' | 'k' => 'K' | 'l' => 'L'
  | 'm' => 'M' | 'n' => 'N' | 'o' => 'O' | 'p' => 'P' | 'q' => 'Q' | 'r' => 'R'
  | 's' => 'S' | 't' => 'T' | 'u' => 'U' | 'v' => 'V' | 'w' => 'W' | 'x' => 'X'
  | 'y' => 'Y' | 'z' => 'Z'
  | other => other

/-- Case-insensitive match of input char c against (lowercase) pattern char p. -/
def ciMatch (p c : Char) : Bool := c = p || c = upOf p

/-- Case-insensitive literal (pattern written in lowercase). -/
def litCI : List Char → List Char → (List Char → Option β) → Option β
  | [], cs, k => k cs
  | p :: ps, c :: cs, k => if ciMatch p c then litCI ps cs k else none
  | _ :: _, [], _ => none

/-- Case-sensitive literal. -/
def litCS : List Char → List Char → (List Char → Option β) → Option β
  | [], cs, k => k cs
  | p :: ps, c :: cs, k => if c = p then litCS ps cs k else none
  | _ :: _, [], _ => none

/-- One character of a class. -/
def chCls (cls : Char → Bool) : List Char → (List Char → Option β) → Option β
  | c :: cs, k => if cls c then k cs else none
  | [], _ => none

/-- Greedy star over a character class. -/
def gStar (cls : Char → Bool) : List Char → (List Char → Option β) → Option β
  | [], k => k []
  | c :: cs, k => if cls c then (gStar cls cs k <|> k (c :: cs)) else k (c :: cs)

/-- Greedy plus over a character class. -/
def gPlus (cls : Char → Bool) (cs : List Char) (k : List Char → Option β) : Option β :=
  chCls cls cs (fun r => gStar cls r k)

/-- Lazy star over a character class. -/
def lStar (cls : Char → Bool) : List Char → (List Char → Option β) → Option β
  | [], k => k []
  | c :: cs, k => k (c :: cs) <|> (if cls c then lStar cls cs k else none)

/-- Lazy plus over a character class. -/
def lPlus (cls : Char → Bool) (cs : List Char) (k : List Char → Option β) : Option β :=
  chCls cls cs (fun r => lStar cls r k)

/-- Greedy optional. -/
def optT (m : List Char → (List Char → Option β) → Option β)
    (cs : List Char) (k : List Char → Option β) : Option β :=
  m cs k <|> k cs

/-- Exactly n characters of a class. -/
def exactCls (cls : Char → Bool) : Nat → List Char → (List Char → Option β) → Option β
  | 0, cs, k => k cs
  | n + 1, cs, k => chCls cls cs (fun r => exactCls cls n r k)

/-- The capture of a sub-matcher: the slice it consumed. -/
def capture (m : List Char → (List Char → Option β) → Option β)
    (cs : List Char) (k : List Char → List Char → Option β) : Option β :=
  m cs (fun rest => k (cs.take (cs.length - rest.length)) rest)

/-- A word boundary between the previous character and the rest. -/
def atBoundary (prev : Option Char) (cs : List Char) : Bool :=
  (match prev with | some p => isWordA p | none => false)
    != (match cs with | c :: _ => isWordA c | [] => false)

/-- Scan for the leftmost successful match, tracking the previous character. -/
def scanA (m : Option Char → List Char → Option β) : Option Char → List Char → Option β
  | prev, [] => m prev []
  | prev, c :: cs => m prev (c :: cs) <|> scanA m (some c) cs

/-- Run a scan over a string (JS string.match search). -/
def scanS (m : Option Char → List Char → Option β) (s : String) : Option β :=
  scanA m none s.data

theorem orElse_eq_some (a b : Option β) (x : β) (h : (a <|> b) = some x) :
    a = some x ∨ b = some x := by
  cases a <;> simp_all

theorem litCI_sfx (ps cs : List Char) (k : List Char → Option β) (b : β)
    (h : litCI ps cs k = some b) : ∃ cs', cs' <:+ cs ∧ k cs' = some b := by
  induction ps generalizing cs with
  | nil => exact ⟨cs, List.suffix_refl cs, h⟩
  | cons p ps ih =>
      cases cs with
      | nil => simp [litCI] at h
      | cons c r =>
          simp only [litCI] at h
          split at h
          · obtain ⟨cs', hs, hk⟩ := ih r h
            exact ⟨cs', hs.trans (List.suffix_cons c r), hk⟩
          · simp at h

theorem gStar_sfx (cls : Char → Bool) (cs : List Char) (k : List Char → Option β) (b : β)
    (h : gStar cls cs k = some b) : ∃ cs', cs' <:+ cs ∧ k cs' = some b := by
  induction cs with
  | nil => exact ⟨[], List.suffix_refl [], h⟩
  | cons c r ih =>
      simp only [gStar] at h
      split at h
      · rcases orElse_eq_some _ _ _ h with h1 | h2
        · obtain ⟨cs', hs, hk⟩ := ih h1
          exact ⟨cs', hs.trans (List.suffix_cons c r), hk⟩
        · exact ⟨c :: r, List.suffix_refl _, h2⟩
      · exact ⟨c :: r, List.suffix_refl _, h⟩

theorem litCI_cons_head (p : Char) (ps cs : List Char) (k : List Char → Option β) (b : β)
    (h : litCI (p :: ps) cs k = some b) :
    ∃ c r, cs = c :: r ∧ ciMatch p c = true := by
  cases cs with
  | nil => simp [litCI] at h
  | cons c r =>
      simp only [litCI] at h
      split at h
      · exact ⟨c, r, rfl, by assumption⟩
      · simp at h

theorem ciMatch_one (c : Char) (h : ciMatch '1' c = true) : c = '1' := by
  simp only [ciMatch, upOf, Bool.or_eq_true, decide_eq_true_eq] at h
  rcases h with h | h <;> simp_all

theorem ciMatch_w (c : Char) (h : ciMatch 'w' c = true) : c = 'w' ∨ c = 'W' := by
  simp only [ciMatch, upOf, Bool.or_eq_true, decide_eq_true_eq] at h
  rcases h with h | h <;> simp_all

/-! ### Wage recovery from OCR text (source lines 644-689) -/

/-- The class [,\s]. -/
def isCommaWs (c : Char) : Bool := c = ',' || isWsA c

/-- The class [\d,]. -/
def isDigComma (c : Char) : Bool := isDigitA c || c = ','

/-- The class [:\s]. -/
def isColonWs (c : Char) : Bool := c = ':' || isWsA c

/-- The capturing group of every wage pattern: ([\d,]+\.?\d*). -/
def amountCap (cs : List Char) (k : List Char → List Char → Option β) : Option β :=
  capture (fun cs2 k2 =>
    gPlus isDigComma cs2 (fun r =>
      optT (chCls (fun c => c = '.')) r (fun r2 =>
        gStar isDigitA r2 k2))) cs k

/-- Shared middle of the Box-1 label: Wages[,\s]*tips[,\s]*other\s+ (i flag). -/
def wagesTipsOther (cs : List Char) (k : List Char → Option β) : Option β :=
  litCI "wages".data cs (fun r1 =>
    gStar isCommaWs r1 (fun r2 =>
      litCI "tips".data r2 (fun r3 =>
        gStar isCommaWs r3 (fun r4 =>
          litCI "other".data r4 (fun r5 =>
            gPlus isWsA r5 k)))))

/-- Wage pattern 1: \b1\s+Wages[,\s]*tips[,\s]*other\s+comp\.\s+([\d,]+\.?\d*) (i). -/
def wageP1at (prev : Option Char) (cs : List Char) : Option String :=
  if atBoundary prev cs then
    litCI "1".data cs (fun r1 =>
      gPlus isWsA r1 (fun r2 =>
        wagesTipsOther r2 (fun r3 =>
          litCI "comp.".data r3 (fun r4 =>
            gPlus isWsA r4 (fun r5 =>
              amountCap r5 (fun cap _ => some ⟨cap⟩))))))
  else none

/-- Wage pattern 2: \b1\s+Wages[,\s]*tips[,\s]*other\s+compensation\s+([\d,]+\.?\d*) (i). -/
def wageP2at (prev : Option Char) (cs : List Char) : Option String :=
  if atBoundary prev cs then
    litCI "1".data cs (fun r1 =>
      gPlus isWsA r1 (fun r2 =>
        wagesTipsOther r2 (fun r3 =>
          litCI "compensation".data r3 (fun r4 =>
            gPlus isWsA r4 (fun r5 =>
              amountCap r5 (fun cap _ => some ⟨cap⟩))))))
  else none

/-- Wage pattern 3: \b1\.?\s*Wages[,\s]*tips[,\s]*other\s+compensation[:\s]+\$?(...) (i). -/
def wageP3at (prev : Option Char) (cs : List Char) : Option String :=
  if atBoundary prev cs then
    litCI "1".data cs (fun r1 =>
      optT (chCls (fun c => c = '.')) r1 (fun r2 =>
        gStar isWsA r2 (fun r3 =>
          wagesTipsOther r3 (fun r4 =>
            litCI "compensation".data r4 (fun r5 =>
              gPlus isColonWs r5 (fun r6 =>
                optT (chCls (fun c => c = '$')) r6 (fun r7 =>
                  amountCap r7 (fun cap _ => some ⟨cap⟩))))))))
  else none

/-- Wage pattern 4: \b1\.?\s*Wages[,\s]*tips[,\s]*other\s+comp\.[:\s]+\$?(...) (i). -/
def wageP4at (prev : Option Char) (cs : List Char) : Option String :=
  if atBoundary prev cs then
    litCI "1".data cs (fun r1 =>
      optT (chCls (fun c => c = '.')) r1 (fun r2 =>
        gStar isWsA r2 (fun r3 =>
          wagesTipsOther r3 (fun r4 =>
            litCI "comp.".data r4 (fun r5 =>
              gPlus isColonWs r5 (fun r6 =>
                optT (chCls (fun c => c = '$')) r6 (fun r7 =>
                  amountCap r7 (fun cap _ => some ⟨cap⟩))))))))
  else none

/-- Wage pattern 5: \b(?:Box\s*)?1\s+\$?([\d,]+\.?\d*) (i). -/
def wageP5at (prev : Option Char) (cs : List Char) : Option String :=
  if atBoundary prev cs then
    optT (fun cs2 k2 => litCI "box".data cs2 (fun r => gStar isWsA r k2)) cs (fun r0 =>
      litCI "1".data r0 (fun r1 =>
        gPlus isWsA r1 (fun r2 =>
          optT (chCls (fun c => c = '$')) r2 (fun r3 =>
            amountCap r3 (fun cap _ => some ⟨cap⟩)))))
  else none

/-- Wage pattern 6: Wages\s+and\s+tips\s+\$?([\d,]+\.?\d*) (i), no boundary. -/
def wageP6at (_prev : Option Char) (cs : List Char) : Option String :=
  litCI "wages".data cs (fun r1 =>
    gPlus isWsA r1 (fun r2 =>
      litCI "and".data r2 (fun r3 =>
        gPlus isWsA r3 (fun r4 =>
          litCI "tips".data r4 (fun r5 =>
            gPlus isWsA r5 (fun r6 =>
              optT (chCls (fun c => c = '$')) r6 (fun r7 =>
                amountCap r7 (fun cap _ => some ⟨cap⟩))))))))

/-- Wage pattern 7: \b1\s+Wages[,\s]*tips[,\s]*other\s+compensation[\s\n]+\$?(...) (i). -/
def wageP7at (prev : Option Char) (cs : List Char) : Option String :=
  if atBoundary prev cs then
    litCI "1".data cs (fun r1 =>
      gPlus isWsA r1 (fun r2 =>
        wagesTipsOther r2 (fun r3 =>
          litCI "compensation".data r3 (fun r4 =>
            gPlus isWsA r4 (fun r5 =>
              optT (chCls (fun c => c = '$')) r5 (fun r6 =>
                amountCap r6 (fun cap _ => some ⟨cap⟩)))))))
  else none

/-- Wage pattern 8: \b1\s+Wages[,\s]*tips[,\s]*other\s+comp\.[\s\n]+\$?(...) (i). -/
def wageP8at (prev : Option Char) (cs : List Char) : Option String :=
  if atBoundary prev cs then
    litCI "1".data cs (fun r1 =>
      gPlus isWsA r1 (fun r2 =>
        wagesTipsOther r2 (fun r3 =>
          litCI "comp.".data r3 (fun r4 =>
            gPlus isWsA r4 (fun r5 =>
              optT (chCls (fun c => c = '$')) r5 (fun r6 =>
                amountCap r6 (fun cap _ => some ⟨cap⟩)))))))
  else none

/-- The ordered wage pattern cascade. -/
def wagePatterns : List (Option Char → List Char → Option String) :=
  [wageP1at, wageP2at, wageP3at, wageP4at, wageP5at, wageP6at, wageP7at, wageP8at]

/-- One pattern attempt: first match, nonempty capture, cleaned, parsed,
    accepted only when not NaN and positive (source lines 670-685). -/
def wageTry (m : Option Char → List Char → Option String) (t : String) : Option JNum :=
  match scanS m t with
  | some cap =>
      if cap ≠ "" then
        let parsed := parseFloatJS (cleanAmount cap)
        if (!parsed.isNaN) && parsed.gtZero then some parsed else none
      else none
  | none => none

/-- First-match-wins over the cascade, defaulting to 0. -/
def firstWage : List (Option Char → List Char → Option String) → String → JNum
  | [], _ => .fin 0
  | m :: ms, t =>
      match wageTry m t with
      | some w => w
      | none => firstWage ms t

/-- extractWagesFromOCR (source lines 647-689). -/
def extractWagesFromOCR (t : String) : JNum :=
  firstWage wagePatterns t

/-! ### Personal-info recovery from OCR text (source lines 375-486) -/

/-- The class [A-Z\s] and [A-Za-z\s] under the i flag. -/
def isAlphaWs (c : Char) : Bool := isAlphaA c || isWsA c

/-- The class [^\n]. -/
def notNL (c : Char) : Bool := c != '\n'

/-- The class [0-9A-Za-z]. -/
def isAlnumA (c : Char) : Bool := isDigitA c || isAlphaA c

/-- JS String.prototype.trim (ASCII whitespace). -/
def trimJS (s : String) : String :=
  ⟨((s.data.dropWhile isWsA).reverse.dropWhile isWsA).reverse⟩

/-- replace(/\s+/g, ' '): the flag records whether the previous
    character was part of a whitespace run already emitted as ' '. -/
def collapseWsGo : Bool → List Char → List Char
  | _, [] => []
  | inWs, c :: cs =>
      if isWsA c then
        if inWs then collapseWsGo true cs else ' ' :: collapseWsGo true cs
      else c :: collapseWsGo false cs

/-- replace(/\s+/g, ' ') on a character list. -/
def collapseWsA (l : List Char) : List Char := collapseWsGo false l

/-- replace(/\s+/g, ' ') on a string. -/
def collapseWsStr (s : String) : String := ⟨collapseWsA s.data⟩

/-- A sequence of case-insensitive literal words separated by \s+. -/
def wordsCI : List String → List Char → (List Char → Option β) → Option β
  | [], cs, k => k cs
  | [w], cs, k => litCI w.data cs k
  | w :: ws, cs, k =>
      litCI w.data cs (fun r => gPlus isWsA r (fun r2 => wordsCI ws r2 k))

/-- trim, then \n to space, then collapse whitespace (address cleanup). -/
def addrClean (s : String) : String :=
  collapseWsStr ⟨(trimJS s).data.map (fun c => if c = '\n' then ' ' else c)⟩

/-- Name group ([A-Z][A-Z\s]+?) (i): one letter then a lazy run. -/
def nameGrp (cs : List Char) (k : List Char → List Char → Option β) : Option β :=
  capture (fun a kk => chCls isAlphaA a (fun r => lPlus isAlphaWs r kk)) cs k

/-- Name group ([A-Za-z\s]+?) (i): a lazy letter-or-space run. -/
def looseNameGrp (cs : List Char) (k : List Char → List Char → Option β) : Option β :=
  capture (fun a kk => lPlus isAlphaWs a kk) cs k

/-- End of input (the $ anchor without the m flag). -/
def endAnchor (cs : List Char) (k : List Char → Option β) : Option β :=
  if cs.isEmpty then k cs else none

/-- Alternation tail (?:\s+\d|\n|f\s+Employee's\s+address|$). -/
def nameTail1 (cs : List Char) (k : List Char → Option β) : Option β :=
  (gPlus isWsA cs (fun r => chCls isDigitA r k)) <|>
  (chCls (fun c => c = '\n') cs k) <|>
  (wordsCI ["f", "employee\x27s", "address"] cs k) <|>
  (endAnchor cs k)

/-- Alternation tail (?:\s+\d{3,4}|\n|$). -/
def nameTail2 (cs : List Char) (k : List Char → Option β) : Option β :=
  (gPlus isWsA cs (fun r => exactCls isDigitA 3 r (fun r2 =>
    optT (chCls isDigitA) r2 k))) <|>
  (chCls (fun c => c = '\n') cs k) <|>
  (endAnchor cs k)

/-- Alternation tail (?:\s+\d|\n|Employee's\s+address|$). -/
def nameTail3 (cs : List Char) (k : List Char → Option β) : Option β :=
  (gPlus isWsA cs (fun r => chCls isDigitA r k)) <|>
  (chCls (fun c => c = '\n') cs k) <|>
  (wordsCI ["employee\x27s", "address"] cs k) <|>
  (endAnchor cs k)

/-- Alternation tail (?:\n|Employee's\s+address|Employee's\s+social|SSN|Social|Address|$). -/
def nameTail5 (cs : List Char) (k : List Char → Option β) : Option β :=
  (chCls (fun c => c = '\n') cs k) <|>
  (wordsCI ["employee\x27s", "address"] cs k) <|>
  (wordsCI ["employee\x27s", "social"] cs k) <|>
  (litCI "ssn".data cs k) <|>
  (litCI "social".data cs k) <|>
  (litCI "address".data cs k) <|>
  (endAnchor cs k)

/-- Name pattern 1 (split first/last name), source line 394. -/
def nameP1at (_prev : Option Char) (cs : List Char) : Option (String × Option String) :=
  wordsCI ["e", "employee\x27s", "first", "name", "and", "initial"] cs (fun r1 =>
  gPlus isWsA r1 (fun r2 =>
  nameGrp r2 (fun g1 r3 =>
  gPlus isWsA r3 (fun r4 =>
  wordsCI ["last", "name"] r4 (fun r5 =>
  gPlus isWsA r5 (fun r6 =>
  nameGrp r6 (fun g2 r7 =>
  nameTail1 r7 (fun _ => some (⟨g1⟩, some ⟨g2⟩)))))))))

/-- Name pattern 2 (combined name-address line), source line 396. -/
def nameP2at (_prev : Option Char) (cs : List Char) : Option (String × Option String) :=
  wordsCI ["e/f", "employee\x27s", "name,", "address", "and", "zip", "code"] cs (fun r1 =>
  gPlus isWsA r1 (fun r2 =>
  nameGrp r2 (fun g1 r3 =>
  nameTail2 r3 (fun _ => some (⟨g1⟩, none)))))

/-- Name pattern 3, source line 398. -/
def nameP3at (_prev : Option Char) (cs : List Char) : Option (String × Option String) :=
  wordsCI ["e", "employee\x27s", "first", "name", "and", "initial", "last", "name"] cs (fun r1 =>
  gPlus isWsA r1 (fun r2 =>
  looseNameGrp r2 (fun g1 r3 =>
  nameTail3 r3 (fun _ => some (⟨g1⟩, none)))))

/-- Name pattern 4 (pattern 3 without the leading label letter), source line 400. -/
def nameP4at (_prev : Option Char) (cs : List Char) : Option (String × Option String) :=
  wordsCI ["employee\x27s", "first", "name", "and", "initial", "last", "name"] cs (fun r1 =>
  gPlus isWsA r1 (fun r2 =>
  looseNameGrp r2 (fun g1 r3 =>
  nameTail3 r3 (fun _ => some (⟨g1⟩, none)))))

/-- Name pattern 5 (bare Employee: label), source line 402. -/
def nameP5at (_prev : Option Char) (cs : List Char) : Option (String × Option String) :=
  litCI "employee".data cs (fun r1 =>
  gPlus isColonWs r1 (fun r2 =>
  looseNameGrp r2 (fun g1 r3 =>
  nameTail5 r3 (fun _ => some (⟨g1⟩, none)))))

/-- Name pattern 6 (Employee Name: label), source line 404. -/
def nameP6at (_prev : Option Char) (cs : List Char) : Option (String × Option String) :=
  wordsCI ["employee", "name"] cs (fun r1 =>
  gPlus isColonWs r1 (fun r2 =>
  looseNameGrp r2 (fun g1 r3 =>
  nameTail5 r3 (fun _ => some (⟨g1⟩, none)))))

/-- Join of a split name match (trim each, single space, collapse),
    or cleanup of a single-group match (source lines 410-417). -/
def nameJoin (g1 : String) (g2o : Option String) : String :=
  match g2o with
  | some g2 =>
      if g2 ≠ "" then collapseWsStr (trimJS g1 ++ " " ++ trimJS g2)
      else collapseWsStr (trimJS g1)
  | none => collapseWsStr (trimJS g1)

/-- Run one name pattern against the whole text. -/
def nameP1 (t : String) : Option (String × Option String) := scanS nameP1at t

/-- First-match-wins name loop. -/
def nameLoop : List (Option Char → List Char → Option (String × Option String)) →
    String → Option String
  | [], _ => none
  | p :: ps, t =>
      match scanS p t with
      | some (g1, g2o) => if g1 ≠ "" then some (nameJoin g1 g2o) else nameLoop ps t
      | none => nameLoop ps t

/-- The ordered name pattern cascade. -/
def namePatterns : List (Option Char → List Char → Option (String × Option String)) :=
  [nameP1at, nameP2at, nameP3at, nameP4at, nameP5at, nameP6at]

/-- Name recovery (source lines 392-423). -/
def nameRecovery (t : String) : Option String := nameLoop namePatterns t

/-- Capture (\d{3}-\d{2}-\d{4}). -/
def ssnDashedCap (cs : List Char) (k : List Char → List Char → Option β) : Option β :=
  capture (fun a kk =>
    exactCls isDigitA 3 a (fun r1 =>
      chCls (fun c => c = '-') r1 (fun r2 =>
        exactCls isDigitA 2 r2 (fun r3 =>
          chCls (fun c => c = '-') r3 (fun r4 =>
            exactCls isDigitA 4 r4 kk))))) cs k

/-- Capture (\d{9,10}): nine digits then a greedy optional tenth. -/
def ssnDigitsCap (cs : List Char) (k : List Char → List Char → Option β) : Option β :=
  capture (fun a kk =>
    exactCls isDigitA 9 a (fun r => optT (chCls isDigitA) r kk)) cs k

/-- SSN pattern 1: a\s+Employee's\s+social\s+security\s+number\s+(\d{9,10}) (i). -/
def ssnP1at (_prev : Option Char) (cs : List Char) : Option String :=
  wordsCI ["a", "employee\x27s", "social", "security", "number"] cs (fun r1 =>
  gPlus isWsA r1 (fun r2 =>
  ssnDigitsCap r2 (fun g _ => some ⟨g⟩)))

/-- SSN pattern 2: Employee's\s+social\s+security\s+number\s*\n(\d{3}-\d{2}-\d{4}) (i). -/
def ssnP2at (_prev : Option Char) (cs : List Char) : Option String :=
  wordsCI ["employee\x27s", "social", "security", "number"] cs (fun r1 =>
  gStar isWsA r1 (fun r2 =>
  chCls (fun c => c = '\n') r2 (fun r3 =>
  ssnDashedCap r3 (fun g _ => some ⟨g⟩))))

/-- SSN pattern 3: social\s+security\s+number\s*\n(\d{3}-\d{2}-\d{4}) (i). -/
def ssnP3at (_prev : Option Char) (cs : List Char) : Option String :=
  wordsCI ["social", "security", "number"] cs (fun r1 =>
  gStar isWsA r1 (fun r2 =>
  chCls (fun c => c = '\n') r2 (fun r3 =>
  ssnDashedCap r3 (fun g _ => some ⟨g⟩))))

/-- SSN pattern 4: Employee's\s+social\s+security\s+number\s+(\d{9,10}) (i). -/
def ssnP4at (_prev : Option Char) (cs : List Char) : Option String :=
  wordsCI ["employee\x27s", "social", "security", "number"] cs (fun r1 =>
  gPlus isWsA r1 (fun r2 =>
  ssnDigitsCap r2 (fun g _ => some ⟨g⟩)))

/-- SSN pattern 5: social\s+security\s+number\s+(\d{9,10}) (i). -/
def ssnP5at (_prev : Option Char) (cs : List Char) : Option String :=
  wordsCI ["social", "security", "number"] cs (fun r1 =>
  gPlus isWsA r1 (fun r2 =>
  ssnDigitsCap r2 (fun g _ => some ⟨g⟩)))

/-- SSN pattern 6: SSN[:\s]*(\d{3}-\d{2}-\d{4}) (i). -/
def ssnP6at (_prev : Option Char) (cs : List Char) : Option String :=
  litCI "ssn".data cs (fun r1 =>
  gStar isColonWs r1 (fun r2 =>
  ssnDashedCap r2 (fun g _ => some ⟨g⟩)))

/-- SSN pattern 7: Social\s+Security[:\s]*(\d{3}-\d{2}-\d{4}) (i). -/
def ssnP7at (_prev : Option Char) (cs : List Char) : Option String :=
  wordsCI ["social", "security"] cs (fun r1 =>
  gStar isColonWs r1 (fun r2 =>
  ssnDashedCap r2 (fun g _ => some ⟨g⟩)))

/-- SSN pattern 8: the bare (\d{3}-\d{2}-\d{4}) anywhere. -/
def ssnP8at (_prev : Option Char) (cs : List Char) : Option String :=
  ssnDashedCap cs (fun g _ => some ⟨g⟩)

/-- The ordered SSN pattern cascade. -/
def ssnPatterns : List (Option Char → List Char → Option String) :=
  [ssnP1at, ssnP2at, ssnP3at, ssnP4at, ssnP5at, ssnP6at, ssnP7at, ssnP8at]

/-- First-match-wins SSN loop (the raw capture is stored). -/
def ssnLoop : List (Option Char → List Char → Option String) → String → Option String
  | [], _ => none
  | p :: ps, t =>
      match scanS p t with
      | some g => if g ≠ "" then some g else ssnLoop ps t
      | none => ssnLoop ps t

/-- SSN recovery (source lines 426-450). -/
def ssnRecovery (t : String) : Option String := ssnLoop ssnPatterns t

/-- Lazy star of (?:\n[^\n]+) with a fuel bound (each iteration consumes
    at least two characters, so fuel = input length is unbounded behaviour). -/
def lazyNLlines (k : List Char → Option β) : Nat → List Char → Option β
  | 0, cs => k cs
  | fuel + 1, cs =>
      k cs <|> (match cs with
        | '\n' :: r => gPlus notNL r (fun r2 => lazyNLlines k fuel r2)
        | _ => none)

/-- Capture ([^\n]+(?:\n[^\n]+)*?). -/
def multiLineCap (cs : List Char) (k : List Char → List Char → Option β) : Option β :=
  capture (fun a kk => gPlus notNL a (fun r => lazyNLlines kk a.length r)) cs k

/-- Lazy star of (?:\n[0-9A-Za-z][^\n]*) with a fuel bound. -/
def lazyAlnumLines (k : List Char → Option β) : Nat → List Char → Option β
  | 0, cs => k cs
  | fuel + 1, cs =>
      k cs <|> (match cs with
        | '\n' :: r =>
            chCls isAlnumA r (fun r2 => gStar notNL r2 (fun r3 => lazyAlnumLines k fuel r3))
        | _ => none)

/-- Capture ([^\n]+(?:\n[0-9A-Za-z][^\n]*)*?). -/
def multiLineAlnumCap (cs : List Char) (k : List Char → List Char → Option β) : Option β :=
  capture (fun a kk => gPlus notNL a (fun r => lazyAlnumLines kk a.length r)) cs k

/-- Terminator (?:\n\s*\n|Employee's\s+social|Employer|$). -/
def addrTail5 (cs : List Char) (k : List Char → Option β) : Option β :=
  (chCls (fun c => c = '\n') cs (fun r =>
    gStar isWsA r (fun r2 => chCls (fun c => c = '\n') r2 k))) <|>
  (wordsCI ["employee\x27s", "social"] cs k) <|>
  (litCI "employer".data cs k) <|>
  (endAnchor cs k)

/-- Terminator (?:\n\s*\n|social\s+security|Employer|$). -/
def addrTail7 (cs : List Char) (k : List Char → Option β) : Option β :=
  (chCls (fun c => c = '\n') cs (fun r =>
    gStar isWsA r (fun r2 => chCls (fun c => c = '\n') r2 k))) <|>
  (wordsCI ["social", "security"] cs k) <|>
  (litCI "employer".data cs k) <|>
  (endAnchor cs k)

/-- Terminator (?:\n\n|Employee|Employer|$). -/
def addrTail8 (cs : List Char) (k : List Char → Option β) : Option β :=
  (chCls (fun c => c = '\n') cs (fun r => chCls (fun c => c = '\n') r k)) <|>
  (litCI "employee".data cs k) <|>
  (litCI "employer".data cs k) <|>
  (endAnchor cs k)

/-- Address pattern 1:
    f\s+Employee's\s+address\s+and\s+ZIP\s+code\s+([^\n]+?)(?:\n|a\s+Employee's\s+social|$) (i). -/
def addrP1at (_prev : Option Char) (cs : List Char) : Option String :=
  wordsCI ["f", "employee\x27s", "address", "and", "zip", "code"] cs (fun r1 =>
  gPlus isWsA r1 (fun r2 =>
  capture (fun a kk => lPlus notNL a kk) r2 (fun g r3 =>
  ((chCls (fun c => c = '\n') r3 (fun _ => some (⟨g⟩ : String))) <|>
   (wordsCI ["a", "employee\x27s", "social"] r3 (fun _ => some ⟨g⟩)) <|>
   (endAnchor r3 (fun _ => some ⟨g⟩))))))

/-- Address pattern 2: after the combined name-address label, skip the lazy
    name and capture ([0-9][^\n]*?) up to (?:\n|$) (source line 458). -/
def addrP2at (_prev : Option Char) (cs : List Char) : Option String :=
  wordsCI ["e/f", "employee\x27s", "name,", "address", "and", "zip", "code"] cs (fun r1 =>
  gPlus isWsA r1 (fun r2 =>
  chCls isAlphaA r2 (fun r3 =>
  lPlus isAlphaWs r3 (fun r4 =>
  gPlus isWsA r4 (fun r5 =>
  capture (fun a kk => chCls isDigitA a (fun r => lStar notNL r kk)) r5 (fun g r6 =>
  ((chCls (fun c => c = '\n') r6 (fun _ => some (⟨g⟩ : String))) <|>
   (endAnchor r6 (fun _ => some ⟨g⟩)))))))))

/-- Address pattern 3: after the split-name label, skip the lazy name and
    capture ([0-9][^\n]*?) up to (?:\n|$) (source line 460). -/
def addrP3at (_prev : Option Char) (cs : List Char) : Option String :=
  wordsCI ["e", "employee\x27s", "first", "name", "and", "initial", "last", "name"] cs (fun r1 =>
  gPlus isWsA r1 (fun r2 =>
  lPlus isAlphaWs r2 (fun r4 =>
  gPlus isWsA r4 (fun r5 =>
  capture (fun a kk => chCls isDigitA a (fun r => lStar notNL r kk)) r5 (fun g r6 =>
  ((chCls (fun c => c = '\n') r6 (fun _ => some (⟨g⟩ : String))) <|>
   (endAnchor r6 (fun _ => some ⟨g⟩))))))))

/-- Address pattern 4: the generic
    ([A-Za-z\s]+)\s+([0-9][^\n]*?)(?:\n([A-Za-z\s]+[A-Z]{2}\s+\d{5}(?:-\d{4})?))? (i);
    only the first capture is used by the caller (source line 462). -/
def addrP4at (_prev : Option Char) (cs : List Char) : Option String :=
  capture (fun a kk => gPlus isAlphaWs a kk) cs (fun g1 r1 =>
  gPlus isWsA r1 (fun r2 =>
  chCls isDigitA r2 (fun r3 =>
  lStar notNL r3 (fun r4 =>
  optT (fun a kk =>
      chCls (fun c => c = '\n') a (fun rr1 =>
      gPlus isAlphaWs rr1 (fun rr2 =>
      exactCls isAlphaA 2 rr2 (fun rr3 =>
      gPlus isWsA rr3 (fun rr4 =>
      exactCls isDigitA 5 rr4 (fun rr5 =>
      optT (fun b kb =>
          chCls (fun c => c = '-') b (fun b2 => exactCls isDigitA 4 b2 kb)) rr5 kk))))))
    r4 (fun _ => some ⟨g1⟩)))))

/-- Address pattern 5:
    Employee's\s+address\s+and\s+ZIP\s+code\s*\n(multi-line)(terminator) (i). -/
def addrP5at (_prev : Option Char) (cs : List Char) : Option String :=
  wordsCI ["employee\x27s", "address", "and", "zip", "code"] cs (fun r1 =>
  gStar isWsA r1 (fun r2 =>
  chCls (fun c => c = '\n') r2 (fun r3 =>
  multiLineCap r3 (fun g r4 =>
  addrTail5 r4 (fun _ => some ⟨g⟩)))))

/-- Address pattern 6: Employee's\s+address[^\n]*\n(alnum-led lines)(terminator) (i). -/
def addrP6at (_prev : Option Char) (cs : List Char) : Option String :=
  wordsCI ["employee\x27s", "address"] cs (fun r1 =>
  gStar notNL r1 (fun r2 =>
  chCls (fun c => c = '\n') r2 (fun r3 =>
  multiLineAlnumCap r3 (fun g r4 =>
  addrTail5 r4 (fun _ => some ⟨g⟩)))))

/-- Address pattern 7: address\s+and\s+ZIP\s+code[^\n]*\n(multi-line)(terminator) (i). -/
def addrP7at (_prev : Option Char) (cs : List Char) : Option String :=
  wordsCI ["address", "and", "zip", "code"] cs (fun r1 =>
  gStar notNL r1 (fun r2 =>
  chCls (fun c => c = '\n') r2 (fun r3 =>
  multiLineCap r3 (fun g r4 =>
  addrTail7 r4 (fun _ => some ⟨g⟩)))))

/-- Address pattern 8: Address[:\s]+(multi-line)(?:\n\n|Employee|Employer|$) (i). -/
def addrP8at (_prev : Option Char) (cs : List Char) : Option String :=
  litCI "address".data cs (fun r1 =>
  gPlus isColonWs r1 (fun r2 =>
  multiLineCap r2 (fun g r3 =>
  addrTail8 r3 (fun _ => some ⟨g⟩))))

/-- The ordered address pattern cascade. -/
def addrPatterns : List (Option Char → List Char → Option String) :=
  [addrP1at, addrP2at, addrP3at, addrP4at, addrP5at, addrP6at, addrP7at, addrP8at]

/-- First-match-wins address loop, cleaning the capture (source line 477). -/
def addrLoop : List (Option Char → List Char → Option String) → String → Option String
  | [], _ => none
  | p :: ps, t =>
      match scanS p t with
      | some g => if g ≠ "" then some (addrClean g) else addrLoop ps t
      | none => addrLoop ps t

/-- Address recovery (source lines 454-483). -/
def addrRecovery (t : String) : Option String := addrLoop addrPatterns t

/-- The optional name/ssn/address result of OCR recovery. -/
structure PersonalInfo where
  name : Option String
  ssn : Option String
  address : Option String
deriving DecidableEq, Repr

/-- extractPersonalInfoFromOCR (source lines 379-486). -/
def extractPersonalInfoFromOCR (t : String) : PersonalInfo :=
  ⟨nameRecovery t, ssnRecovery t, addrRecovery t⟩

/-! ### Address decomposition (source lines 488-642) -/

/-- street/city/state/zipCode result of the decomposer. -/
structure AddressParts where
  street : String
  city : String
  state : String
  zipCode : String
deriving DecidableEq, Repr

/-- Match ,\s*, at the head; returns the rest after the second comma. -/
def commaPairAt : List Char → Option (List Char)
  | ',' :: r =>
      (match r.drop (r.takeWhile isWsA).length with
       | ',' :: r2 => some r2
       | _ => none)
  | _ => none

/-- replace(/,\s*,/g, ','): global replace continuing after each match. -/
def collapseCommasGo : Nat → List Char → List Char
  | 0, cs => cs
  | fuel + 1, cs =>
      match cs with
      | [] => []
      | c :: cs' =>
          match commaPairAt cs with
          | some rest => ',' :: collapseCommasGo fuel rest
          | none => c :: collapseCommasGo fuel cs'

/-- replace(/,\s*,/g, ',') on a list. -/
def collapseCommas (l : List Char) : List Char := collapseCommasGo l.length l

/-- The normalization of the input address (source line 505):
    trim, collapse whitespace runs, collapse comma pairs. -/
def normalizeAddr (s : String) : String :=
  ⟨collapseCommas (collapseWsA (trimJS s).data)⟩

/-- Trailing word boundary after a word character: next is not a word char. -/
def tzTail (rest : List Char) : Bool :=
  (match rest with
   | '-' :: r2 =>
       (r2.takeWhile isDigitA).length = 4 && (r2.drop 4).all isWsA
   | _ => false)
  || rest.all isWsA

/-- Does /\s*\b\d{5}(?:-\d{4})?\b\s*$/ match from this position to the end. -/
def trailZipFrom (prev : Option Char) (cs : List Char) : Bool :=
  let sp := cs.takeWhile isWsA
  let r := cs.drop sp.length
  let prevC := if sp.isEmpty then prev else some ' '
  match r with
  | [] => false
  | _ =>
      if atBoundary prevC r then
        if (r.takeWhile isDigitA).length = 5 then tzTail (r.drop 5) else false
      else false

/-- s.replace(/\s*\b\d{5}(?:-\d{4})?\b\s*$/, ''): cut at the leftmost
    position from which the trailing-zip pattern reaches the end. -/
def stripTrailZipGo (prev : Option Char) (acc : List Char) : List Char → List Char
  | [] => acc.reverse
  | c :: cs =>
      if trailZipFrom prev (c :: cs) then acc.reverse
      else stripTrailZipGo (some c) (c :: acc) cs

/-- Strip a trailing ZIP token. -/
def stripTrailZip (s : String) : String := ⟨stripTrailZipGo none [] s.data⟩

/-- Does /\s*\b[A-Z]{2}\b?\s*$/ match from this position to the end
    (the optional second boundary is redundant before \s*$). -/
def trailCapsFrom (prev : Option Char) (cs : List Char) : Bool :=
  let sp := cs.takeWhile isWsA
  let r := cs.drop sp.length
  let prevC := if sp.isEmpty then prev else some ' '
  match r with
  | c1 :: c2 :: rest => atBoundary prevC r && isUpperA c1 && isUpperA c2 && rest.all isWsA
  | _ => false

/-- s.replace(/\s*\b[A-Z]{2}(\b)?\s*$/, ''). -/
def stripTrailCapsGo (prev : Option Char) (acc : List Char) : List Char → List Char
  | [] => acc.reverse
  | c :: cs =>
      if trailCapsFrom prev (c :: cs) then acc.reverse
      else stripTrailCapsGo (some c) (c :: acc) cs

/-- Strip a trailing two-uppercase-letter token. -/
def stripTrailCaps (s : String) : String := ⟨stripTrailCapsGo none [] s.data⟩

/-- Capture (\d{5}(?:-\d{4})?) with backtracking on the optional part. -/
def zipGrp (cs : List Char) (k : List Char → List Char → Option β) : Option β :=
  capture (fun a kk =>
    exactCls isDigitA 5 a (fun r =>
      optT (fun b kb => chCls (fun c => c = '-') b (fun b2 => exactCls isDigitA 4 b2 kb))
        r kk)) cs k

/-- The ZIP search /\b(\d{5}(?:-\d{4})?)\b/ at one position. -/
def zipTokenAt (prev : Option Char) (cs : List Char) : Option String :=
  if atBoundary prev cs then
    zipGrp cs (fun g rest =>
      if (match rest with | [] => true | c :: _ => !isWordA c) then some ⟨g⟩ else none)
  else none

/-- State pattern (a): /\b([A-Z]{2})\s*\d{5}/. -/
def stateAat (prev : Option Char) (cs : List Char) : Option String :=
  if atBoundary prev cs then
    capture (fun a kk => exactCls isUpperA 2 a kk) cs (fun g r =>
      gStar isWsA r (fun r2 => exactCls isDigitA 5 r2 (fun _ => some ⟨g⟩)))
  else none

/-- State pattern (b): /,\s*([A-Z]{2})\s*$/. -/
def stateBat (_prev : Option Char) (cs : List Char) : Option String :=
  chCls (fun c => c = ',') cs (fun r =>
  gStar isWsA r (fun r2 =>
  capture (fun a kk => exactCls isUpperA 2 a kk) r2 (fun g r3 =>
  gStar isWsA r3 (fun r4 => endAnchor r4 (fun _ => some ⟨g⟩)))))

/-- State pattern (c): /\s([A-Z]{2})\s/. -/
def stateCat (_prev : Option Char) (cs : List Char) : Option String :=
  chCls isWsA cs (fun r =>
  capture (fun a kk => exactCls isUpperA 2 a kk) r (fun g r2 =>
  chCls isWsA r2 (fun _ => some ⟨g⟩)))

/-- OCR state pattern /State:\s*([A-Z]{2})/i. -/
def ocrStateAt (_prev : Option Char) (cs : List Char) : Option String :=
  litCI "state:".data cs (fun r =>
  gStar isWsA r (fun r2 =>
  capture (fun a kk => exactCls isAlphaA 2 a kk) r2 (fun g _ => some ⟨g⟩)))

/-- ASCII toUpperCase. -/
def upperStr (s : String) : String := ⟨s.data.map upOf⟩

/-- JS String.prototype.split(','). -/
def splitCommaGo (acc : List Char) : List Char → List String
  | [] => [⟨acc.reverse⟩]
  | c :: r => if c = ',' then ⟨acc.reverse⟩ :: splitCommaGo [] r else splitCommaGo (c :: acc) r

/-- Split on commas. -/
def splitComma (s : String) : List String := splitCommaGo [] s.data

/-- Anchored /^\s*(\d{5}(?:-\d{4})?)\s*$/. -/
def zipOnlyM (s : String) : Option String :=
  gStar isWsA s.data (fun r =>
    zipGrp r (fun g r3 =>
      gStar isWsA r3 (fun r4 => endAnchor r4 (fun _ => some ⟨g⟩))))

/-- Anchored /^(APT|APARTMENT|UNIT|SUITE|STE)\s+/i as a test. -/
def aptTest (s : String) : Bool :=
  (((litCI "apt".data s.data (fun r => gPlus isWsA r (fun _ => some ()))) <|>
    (litCI "apartment".data s.data (fun r => gPlus isWsA r (fun _ => some ()))) <|>
    (litCI "unit".data s.data (fun r => gPlus isWsA r (fun _ => some ()))) <|>
    (litCI "suite".data s.data (fun r => gPlus isWsA r (fun _ => some ()))) <|>
    (litCI "ste".data s.data (fun r => gPlus isWsA r (fun _ => some ())))) :
    Option Unit).isSome

/-- Body \s*(\d{5}(?:-\d{4})?)?\s*$ of the state-zip test, with the
    already-decided first group. -/
def szBody (g1 : Option String) (cs : List Char) : Option (Option String × Option String) :=
  gStar isWsA cs (fun r =>
    (zipGrp r (fun g r3 =>
       gStar isWsA r3 (fun r4 => endAnchor r4 (fun _ => some (g1, some ⟨g⟩))))) <|>
    (gStar isWsA r (fun r4 => endAnchor r4 (fun _ => some (g1, none)))))

/-- Anchored /^([A-Z]{2})?\s*(\d{5}(?:-\d{4})?)?\s*$/ with its two
    optional captures. -/
def stateZipM (s : String) : Option (Option String × Option String) :=
  (capture (fun a kk => exactCls isUpperA 2 a kk) s.data (fun g r => szBody (some ⟨g⟩) r)) <|>
  szBody none s.data

/-- Anchored /^(.+?)\s+([A-Z]{2})\s+(\d{5}(?:-\d{4})?)$/. -/
def cityStateZipM (s : String) : Option (String × String × String) :=
  capture (fun a kk => lPlus notNL a kk) s.data (fun c1 r1 =>
  gPlus isWsA r1 (fun r2 =>
  capture (fun a kk => exactCls isUpperA 2 a kk) r2 (fun st r3 =>
  gPlus isWsA r3 (fun r4 =>
  zipGrp r4 (fun z r5 =>
  endAnchor r5 (fun _ => some (⟨c1⟩, ⟨st⟩, ⟨z⟩)))))))

/-- Anchored /^(.+?)\s+([A-Za-z\s]+?)\s+([A-Z]{2})\s+(\d{5}(?:-\d{4})?)$/. -/
def spaceFormatM (s : String) : Option (String × String × String × String) :=
  capture (fun a kk => lPlus notNL a kk) s.data (fun g1 r1 =>
  gPlus isWsA r1 (fun r2 =>
  capture (fun a kk => lPlus isAlphaWs a kk) r2 (fun g2 r3 =>
  gPlus isWsA r3 (fun r4 =>
  capture (fun a kk => exactCls isUpperA 2 a kk) r4 (fun g3 r5 =>
  gPlus isWsA r5 (fun r6 =>
  zipGrp r6 (fun g4 r7 =>
  endAnchor r7 (fun _ => some (⟨g1⟩, ⟨g2⟩, ⟨g3⟩, ⟨g4⟩)))))))))

/-- Join segments with a comma and a space (Array.prototype.join(', ')). -/
def joinCommaSpace : List String → String
  | [] => ""
  | [x] => x
  | x :: xs => x ++ ", " ++ joinCommaSpace xs

/-- The three-or-more-segment branch (source lines 541-574). -/
def branch3 (parts : List String) (st zip : String) : String × String × String × String :=
  let lastPart := parts.getLastD ""
  let s2l := parts.getD (parts.length - 2) ""
  let zo := zipOnlyM lastPart
  if zo.isSome && aptTest s2l then
    (joinCommaSpace parts.dropLast, "", st, zo.getD "")
  else
    match stateZipM lastPart with
    | some (g1, g2) =>
        ((joinCommaSpace (parts.take (parts.length - 2))), s2l,
          (match g1 with | some x => x | none => st),
          (match g2 with | some x => x | none => zip))
    | none =>
        (joinCommaSpace parts.dropLast,
          trimJS (stripTrailCaps (stripTrailZip lastPart)), st, zip)

/-- The two-segment branch (source lines 575-609). -/
def branch2 (parts : List String) (st zip : String) : String × String × String × String :=
  let first := parts.getD 0 ""
  let second := parts.getD 1 ""
  match cityStateZipM second with
  | some (c, s2, z) => (first, c, s2, z)
  | none =>
      match zipOnlyM second with
      | some z => (first, "", st, z)
      | none =>
          if aptTest second then (first ++ ", " ++ second, "", st, zip)
          else (first, trimJS (stripTrailCaps (stripTrailZip second)), st, zip)

/-- The zero-or-one-segment branch (source lines 610-615). -/
def branch1 (norm st zip : String) : String × String × String × String :=
  (trimJS (stripTrailCaps (trimJS (stripTrailZip norm))), "", st, zip)

/-- The space-separated fallback (source lines 617-627). -/
def spaceStep (norm : String) (r : String × String × String × String) :
    String × String × String × String :=
  if r.1 = "" && r.2.1 = "" && norm.data.contains ' ' then
    match spaceFormatM norm with
    | some (g1, g2, g3, g4) => (trimJS g1, trimJS g2, g3, g4)
    | none => r
  else r

/-- replace(/,\s*$/, '') then trim (source lines 630-631). -/
def stripTCWGo (acc : List Char) : List Char → List Char
  | [] => acc.reverse
  | c :: cs => if c = ',' && cs.all isWsA then acc.reverse else stripTCWGo (c :: acc) cs

/-- Remove a trailing comma (with trailing spaces) and trim. -/
def cleanupTrail (s : String) : String := trimJS ⟨stripTCWGo [] s.data⟩

/-- The decomposition core before the street fallback: branch on the
    segment count, space-separated retry, trailing-comma cleanup. -/
def addrCore (norm st1 zip0 : String) : String × String × String × String :=
  let parts := (splitComma norm).map trimJS
  let r :=
    if 3 ≤ parts.length then branch3 parts st1 zip0
    else if parts.length = 2 then branch2 parts st1 zip0
    else branch1 norm st1 zip0
  let r2 := spaceStep norm r
  (cleanupTrail r2.1, cleanupTrail r2.2.1, r2.2.2.1, r2.2.2.2)

/-- The ZIP scan over a string. -/
def zipSearch (s : String) : Option String := scanS zipTokenAt s

/-- The ZIP found in the normalized address (source lines 508-509). -/
def addrZip0 (a : String) : String := (zipSearch (normalizeAddr a)).getD ""

/-- The state found in the normalized address (source lines 512-522). -/
def addrState0 (a : String) : String :=
  match scanS stateAat (normalizeAddr a) with
  | some x => x
  | none =>
      match scanS stateBat (normalizeAddr a) with
      | some x => x
      | none =>
          match scanS stateCat (normalizeAddr a) with
          | some x => x
          | none => ""

/-- The state after the OCR-text fallback (source lines 525-532). -/
def addrState1 (a ocr : String) : String :=
  if addrState0 a = "" && ocr ≠ "" then
    match scanS ocrStateAt ocr with
    | some x => upperStr x
    | none => addrState0 a
  else addrState0 a

/-- extractAddressParts (source lines 492-642). -/
def extractAddressParts (fullAddress ocrText : String) : AddressParts :=
  if fullAddress = "" then ⟨"", "", "", ""⟩
  else
    let norm := normalizeAddr fullAddress
    let c := addrCore norm (addrState1 fullAddress ocrText) (addrZip0 fullAddress)
    ⟨if c.1 = "" then norm else c.1, c.2.1, c.2.2.1, c.2.2.2⟩

/-- The pre-fallback street: empty exactly when no structural branch
    resolved a street (source line 634 falls back in that case). -/
def preStreet (a ocr : String) : String :=
  if a = "" then ""
  else (addrCore (normalizeAddr a) (addrState1 a ocr) (addrZip0 a)).1

/-! ### Field mapping tables and mappers (source lines 118-363) -/

/-- typeof value === 'number' ? value : parseAmount(value). -/
def coerceVal (v : Value) : Value :=
  match v with
  | .num n => .num n
  | v => .num (parseAmountV v)

/-- One iteration of a mapping loop: copy the field if its value is defined. -/
def applyEntry (f : FieldMap) (d : Rec') (az mp : String) : Rec' :=
  match fget f az with
  | some v => rset d mp (coerceVal v)
  | none => d

/-- Walk a mapping table in order. -/
def mapLoop (f : FieldMap) (tbl : List (String × String)) (d : Rec') : Rec' :=
  tbl.foldl (fun acc e => applyEntry f acc e.1 e.2) d

/-- w2FieldMappings (source lines 122-141). -/
def w2FieldMappings : List (String × String) :=
  [("Employee.Name", "employeeName"),
   ("Employee.SSN", "employeeSSN"),
   ("Employee.Address", "employeeAddress"),
   ("Employer.Name", "employerName"),
   ("Employer.EIN", "employerEIN"),
   ("Employer.Address", "employerAddress"),
   ("WagesAndTips", "wages"),
   ("FederalIncomeTaxWithheld", "federalTaxWithheld"),
   ("SocialSecurityWages", "socialSecurityWages"),
   ("SocialSecurityTaxWithheld", "socialSecurityTaxWithheld"),
   ("MedicareWagesAndTips", "medicareWages"),
   ("MedicareTaxWithheld", "medicareTaxWithheld"),
   ("SocialSecurityTips", "socialSecurityTips"),
   ("AllocatedTips", "allocatedTips"),
   ("StateWagesTipsEtc", "stateWages"),
   ("StateIncomeTax", "stateTaxWithheld"),
   ("LocalWagesTipsEtc", "localWages"),
   ("LocalIncomeTax", "localTaxWithheld")]

/-- 1099-INT fieldMappings (source lines 246-260). -/
def int1099FieldMappings : List (String × String) :=
  [("Payer.Name", "payerName"),
   ("Payer.TIN", "payerTIN"),
   ("Payer.Address", "payerAddress"),
   ("Recipient.Name", "recipientName"),
   ("Recipient.TIN", "recipientTIN"),
   ("Recipient.Address", "recipientAddress"),
   ("InterestIncome", "interestIncome"),
   ("EarlyWithdrawalPenalty", "earlyWithdrawalPenalty"),
   ("InterestOnUSTreasuryObligations", "interestOnUSavingsBonds"),
   ("FederalIncomeTaxWithheld", "federalTaxWithheld"),
   ("InvestmentExpenses", "investmentExpenses"),
   ("ForeignTaxPaid", "foreignTaxPaid"),
   ("TaxExemptInterest", "taxExemptInterest")]

/-- 1099-DIV fieldMappings (source lines 275-288). -/
def div1099FieldMappings : List (String × String) :=
  [("Payer.Name", "payerName"),
   ("Payer.TIN", "payerTIN"),
   ("Payer.Address", "payerAddress"),
   ("Recipient.Name", "recipientName"),
   ("Recipient.TIN", "recipientTIN"),
   ("Recipient.Address", "recipientAddress"),
   ("OrdinaryDividends", "ordinaryDividends"),
   ("QualifiedDividends", "qualifiedDividends"),
   ("TotalCapitalGainDistributions", "totalCapitalGain"),
   ("NondividendDistributions", "nondividendDistributions"),
   ("FederalIncomeTaxWithheld", "federalTaxWithheld"),
   ("Section199ADividends", "section199ADividends")]

/-- 1099-MISC fieldMappings (source lines 303-317). -/
def misc1099FieldMappings : List (String × String) :=
  [("Payer.Name", "payerName"),
   ("Payer.TIN", "payerTIN"),
   ("Payer.Address", "payerAddress"),
   ("Recipient.Name", "recipientName"),
   ("Recipient.TIN", "recipientTIN"),
   ("Recipient.Address", "recipientAddress"),
   ("Rents", "rents"),
   ("Royalties", "royalties"),
   ("OtherIncome", "otherIncome"),
   ("FederalIncomeTaxWithheld", "federalTaxWithheld"),
   ("FishingBoatProceeds", "fishingBoatProceeds"),
   ("MedicalAndHealthCarePayments", "medicalHealthPayments"),
   ("NonemployeeCompensation", "nonemployeeCompensation")]

/-- 1099-NEC fieldMappings (source lines 332-341). -/
def nec1099FieldMappings : List (String × String) :=
  [("Payer.Name", "payerName"),
   ("Payer.TIN", "payerTIN"),
   ("Payer.Address", "payerAddress"),
   ("Recipient.Name", "recipientName"),
   ("Recipient.TIN", "recipientTIN"),
   ("Recipient.Address", "recipientAddress"),
   ("NonemployeeCompensation", "nonemployeeCompensation"),
   ("FederalIncomeTaxWithheld", "federalTaxWithheld")]

/-- process1099IntFields (source lines 243-270). -/
def process1099IntFields (f : FieldMap) (base : Rec') : Rec' :=
  mapLoop f int1099FieldMappings base

/-- process1099DivFields (source lines 272-298). -/
def process1099DivFields (f : FieldMap) (base : Rec') : Rec' :=
  mapLoop f div1099FieldMappings base

/-- process1099MiscFields (source lines 300-327). -/
def process1099MiscFields (f : FieldMap) (base : Rec') : Rec' :=
  mapLoop f misc1099FieldMappings base

/-- process1099NecFields (source lines 329-351). -/
def process1099NecFields (f : FieldMap) (base : Rec') : Rec' :=
  mapLoop f nec1099FieldMappings base

/-- processGenericFields (source lines 353-363): every defined value is
    copied under the provider's own field name, with no coercion. -/
def processGenericFields (f : FieldMap) (base : Rec') : Rec' :=
  f.foldl (fun acc e => rset acc e.1 e.2) base

/-- Fallback field name lists (source lines 155, 167, 179). -/
def w2NameFbFields : List String :=
  ["Employee.Name", "EmployeeName", "Employee_Name", "RecipientName"]

/-- The SSN fallback field variants. -/
def w2SsnFbFields : List String :=
  ["Employee.SSN", "EmployeeSSN", "Employee_SSN", "RecipientTIN"]

/-- The address fallback field variants. -/
def w2AddrFbFields : List String :=
  ["Employee.Address", "EmployeeAddress", "Employee_Address", "RecipientAddress"]

/-- The first field in the list whose value is defined and truthy. -/
def firstTruthyField (f : FieldMap) : List String → Option Value
  | [] => none
  | n :: rest =>
      match fget f n with
      | some v => if v.jsTruthy then some v else firstTruthyField f rest
      | none => firstTruthyField f rest

/-- Name field-variant fallback (source lines 154-163): re-reads the raw
    provider value when the canonical slot is falsy. -/
def w2NameFb (f : FieldMap) (d : Rec') : Rec' :=
  if !truthyAt d "employeeName" then
    match firstTruthyField f w2NameFbFields with
    | some v => rset d "employeeName" v
    | none => d
  else d

/-- SSN field-variant fallback (source lines 166-175). -/
def w2SsnFb (f : FieldMap) (d : Rec') : Rec' :=
  if !truthyAt d "employeeSSN" then
    match firstTruthyField f w2SsnFbFields with
    | some v => rset d "employeeSSN" v
    | none => d
  else d

/-- Address field-variant fallback (source lines 178-187). -/
def w2AddrFb (f : FieldMap) (d : Rec') : Rec' :=
  if !truthyAt d "employeeAddress" then
    match firstTruthyField f w2AddrFbFields with
    | some v => rset d "employeeAddress" v
    | none => d
  else d

/-- baseData.fullText as string: the orchestrator always stores a string
    under fullText, so the cast is modelled by projecting the string. -/
def strOfFullText (d : Rec') : String :=
  match rget d "fullText" with
  | some (.str s) => s
  | _ => ""

/-- Conditional store of the OCR-recovered name (source lines 194-197). -/
def ocrSetName (pi : PersonalInfo) (d : Rec') : Rec' :=
  match pi.name with
  | some n => if !truthyAt d "employeeName" && n ≠ "" then rset d "employeeName" (.str n) else d
  | none => d

/-- Conditional store of the OCR-recovered SSN (source lines 199-202). -/
def ocrSetSsn (pi : PersonalInfo) (d : Rec') : Rec' :=
  match pi.ssn with
  | some n => if !truthyAt d "employeeSSN" && n ≠ "" then rset d "employeeSSN" (.str n) else d
  | none => d

/-- Conditional store of the OCR-recovered address (source lines 204-207). -/
def ocrSetAddr (pi : PersonalInfo) (d : Rec') : Rec' :=
  match pi.address with
  | some n => if !truthyAt d "employeeAddress" && n ≠ "" then rset d "employeeAddress" (.str n) else d
  | none => d

/-- OCR personal-info fallback (source lines 190-208). -/
def w2OcrFb (base : Rec') (d : Rec') : Rec' :=
  if (!truthyAt d "employeeName" || !truthyAt d "employeeSSN" || !truthyAt d "employeeAddress")
      && truthyAt base "fullText" then
    ocrSetAddr (extractPersonalInfoFromOCR (strOfFullText base))
      (ocrSetSsn (extractPersonalInfoFromOCR (strOfFullText base))
        (ocrSetName (extractPersonalInfoFromOCR (strOfFullText base)) d))
  else d

/-- Address decomposition step (source lines 211-228): runs only when the
    address slot holds a truthy string, and adds the four derived keys. -/
def w2AddrParse (base : Rec') (d : Rec') : Rec' :=
  match rget d "employeeAddress" with
  | some (.str a) =>
      if a ≠ "" then
        rset (rset (rset (rset d
          "employeeAddressStreet" (.str (extractAddressParts a (strOfFullText base)).street))
          "employeeCity" (.str (extractAddressParts a (strOfFullText base)).city))
          "employeeState" (.str (extractAddressParts a (strOfFullText base)).state))
          "employeeZipCode" (.str (extractAddressParts a (strOfFullText base)).zipCode)
      else d
  | _ => d

/-- OCR wage fallback (source lines 231-238). -/
def w2WageOcr (base : Rec') (d : Rec') : Rec' :=
  if !truthyAt d "wages" && truthyAt base "fullText" then
    if (extractWagesFromOCR (strOfFullText base)).gtZero then
      rset d "wages" (.num (extractWagesFromOCR (strOfFullText base)))
    else d
  else d

/-- processW2Fields (source lines 118-241): mapping loop, three
    field-variant fallbacks, OCR fallback, address decomposition,
    OCR wage fallback, in source order. -/
def processW2Fields (f : FieldMap) (base : Rec') : Rec' :=
  w2WageOcr base (w2AddrParse base (w2OcrFb base
    (w2AddrFb f (w2SsnFb f (w2NameFb f (mapLoop f w2FieldMappings base))))))

/-! ### The orchestrator (source lines 75-116) -/

/-- A provider key-value pair (each side's content may be absent). -/
structure KVPair where
  key : Option String
  value : Option String

/-- The provider's primary document: a field map when fields is set. -/
structure RawDoc where
  fields : Option FieldMap

/-- The provider analysis result consumed by the orchestrator. -/
structure RawResult where
  content : Option String
  documents : List RawDoc
  keyValuePairs : List KVPair

/-- extractedData.fullText = result.content || ''. -/
def baseRec (r : RawResult) : Rec' :=
  rset emptyRec "fullText" (.str (match r.content with | some s => s | none => ""))

/-- The document-type dispatch (source lines 87-100). -/
def dispatchFields (dt : String) (f : FieldMap) (e : Rec') : Rec' :=
  if dt = "W2" then processW2Fields f e
  else if dt = "FORM_1099_INT" then process1099IntFields f e
  else if dt = "FORM_1099_DIV" then process1099DivFields f e
  else if dt = "FORM_1099_MISC" then process1099MiscFields f e
  else if dt = "FORM_1099_NEC" then process1099NecFields f e
  else processGenericFields f e

/-- One key-value pair merge step (source lines 106-112): both trimmed
    sides must be non-empty; assignment overwrites unconditionally. -/
def kvpStep (d : Rec') (p : KVPair) : Rec' :=
  match p.key, p.value with
  | some kc, some vc =>
      if trimJS kc ≠ "" && trimJS vc ≠ "" then rset d (trimJS kc) (.str (trimJS vc)) else d
  | _, _ => d

/-- extractTaxDocumentFields (source lines 75-116): when a primary
    document with fields exists the dispatch result is returned directly;
    the key-value merge runs only otherwise. -/
def extractTaxDocumentFields (r : RawResult) (dt : String) : Rec' :=
  match r.documents with
  | d :: _ =>
      (match d.fields with
       | some f => dispatchFields dt f (baseRec r)
       | none => r.keyValuePairs.foldl kvpStep (baseRec r))
  | [] => r.keyValuePairs.foldl kvpStep (baseRec r)

/-! ### Typed convenience wrappers (source lines 691-728) -/

/-- value || defaultValue on a possibly-undefined value. -/
def jsOrV (o : Option Value) (d : Value) : Value :=
  match o with
  | some v => if v.jsTruthy then v else d
  | none => d

/-- n || 0 on a JS number. -/
def numOrZero (n : JNum) : JNum := if n.truthy then n else .fin 0

/-- The object-literal part of processW2Document (source lines 694-708). -/
def w2Literal (e : Rec') : Rec' :=
  rset (rset (rset (rset (rset (rset (rset (rset (rset (rset (rset (rset (rset (rset emptyRec
    "documentType" (.str "FORM_W2"))
    "employerName" (jsOrV (rget e "employerName") (.str "")))
    "employerEIN" (jsOrV (rget e "employerEIN") (.str "")))
    "employeeName" (jsOrV (rget e "employeeName") (.str "")))
    "employeeSSN" (jsOrV (rget e "employeeSSN") (.str "")))
    "employeeAddress" (jsOrV (rget e "employeeAddress") (.str "")))
    "wages" (.num (numOrZero (parseAmount (rget e "wages")))))
    "federalTaxWithheld" (.num (numOrZero (parseAmount (rget e "federalTaxWithheld")))))
    "socialSecurityWages" (.num (numOrZero (parseAmount (rget e "socialSecurityWages")))))
    "medicareWages" (.num (numOrZero (parseAmount (rget e "medicareWages")))))
    "socialSecurityTaxWithheld" (.num (numOrZero (parseAmount (rget e "socialSecurityTaxWithheld")))))
    "medicareTaxWithheld" (.num (numOrZero (parseAmount (rget e "medicareTaxWithheld")))))
    "stateWages" (.num (numOrZero (parseAmount (rget e "stateWages")))))
    "stateTaxWithheld" (.num (numOrZero (parseAmount (rget e "stateTaxWithheld"))))

/-- The spread { ...literal, ...extractedData }: the spread comes last,
    so an inner key wins over the literal's entry for the same key. -/
def spreadOver (lit inner : Rec') : Rec' :=
  fun k => match inner k with
  | some v => some v
  | none => lit k

/-- processW2Document after the provider call (source lines 691-711). -/
def processW2DocumentPure (e : Rec') : Rec' := spreadOver (w2Literal e) e

/-- The object-literal part of process1099Document (source lines 716-727). -/
def f1099Literal (dt : String) (e : Rec') : Rec' :=
  rset (rset (rset (rset (rset (rset (rset (rset (rset emptyRec
    "documentType" (.str dt))
    "payerName" (jsOrV (rget e "payerName") (.str "")))
    "payerTIN" (jsOrV (rget e "payerTIN") (.str "")))
    "recipientName" (jsOrV (rget e "recipientName") (.str "")))
    "recipientTIN" (jsOrV (rget e "recipientTIN") (.str "")))
    "interestIncome" (.num (numOrZero (parseAmount (rget e "interestIncome")))))
    "ordinaryDividends" (.num (numOrZero (parseAmount (rget e "ordinaryDividends")))))
    "nonemployeeCompensation" (.num (numOrZero (parseAmount (rget e "nonemployeeCompensation")))))
    "federalTaxWithheld" (.num (numOrZero (parseAmount (rget e "federalTaxWithheld"))))

/-- process1099Document after the provider call (source lines 713-728). -/
def process1099DocumentPure (dt : String) (e : Rec') : Rec' :=
  spreadOver (f1099Literal dt e) e

/-- Does the second list start with the first. -/
def startsWithL : List Char → List Char → Bool
  | [], _ => true
  | _ :: _, [] => false
  | p :: ps, c :: cs => p = c && startsWithL ps cs

/-- Substring occurrence test. -/
def containsL (pat : List Char) : List Char → Bool
  | [] => startsWithL pat []
  | c :: cs => startsWithL pat (c :: cs) || containsL pat cs

/-- Case-insensitive substring test (used only to state that a text has
    no Box-1 wage label). -/
def containsCI (pat s : String) : Bool :=
  containsL (pat.data.map upOf) (s.data.map upOf)

/-- The string-valued keys of the W-2 typed wrapper. -/
def w2StringKeys : List String :=
  ["employerName", "employerEIN", "employeeName", "employeeSSN", "employeeAddress"]

/-- The amount-valued keys of the W-2 typed wrapper. -/
def w2AmountKeys : List String :=
  ["wages", "federalTaxWithheld", "socialSecurityWages", "medicareWages",
   "socialSecurityTaxWithheld", "medicareTaxWithheld", "stateWages", "stateTaxWithheld"]

/-- The string-valued keys of the 1099 typed wrapper. -/
def f1099StringKeys : List String :=
  ["payerName", "payerTIN", "recipientName", "recipientTIN"]

/-- The amount-valued keys of the 1099 typed wrapper. -/
def f1099AmountKeys : List String :=
  ["interestIncome", "ordinaryDividends", "nonemployeeCompensation", "federalTaxWithheld"]

/-! ### Structural lemmas about the record pipeline -/

theorem rget_applyEntry (f : FieldMap) (d : Rec') (az mp k : String) :
    rget (applyEntry f d az mp) k =
      if k = mp then
        (match fget f az with
         | some v => some (coerceVal v)
         | none => rget d k)
      else rget d k := by
  unfold applyEntry
  cases h : fget f az with
  | none => simp only [h]; split <;> rfl
  | some v => simp only [h, rget, rset]

theorem truthyAt_eq_of_rget (d : Rec') (k : String) (v : Value) (h : rget d k = some v) :
    truthyAt d k = v.jsTruthy := by
  simp [truthyAt, h]

theorem truthyAt_false_of_rget_none (d : Rec') (k : String) (h : rget d k = none) :
    truthyAt d k = false := by
  simp [truthyAt, h]

theorem mapLoop_nilFields (tbl : List (String × String)) (d : Rec') :
    mapLoop [] tbl d = d := by
  induction tbl generalizing d with
  | nil => rfl
  | cons e tl ih =>
      have he : applyEntry [] d e.1 e.2 = d := by
        unfold applyEntry fget
        rfl
      simp only [mapLoop, List.foldl] at ih ⊢
      rw [he]
      exact ih d

theorem rget_w2NameFb_ne (f : FieldMap) (d : Rec') (k : String) (h : k ≠ "employeeName") :
    rget (w2NameFb f d) k = rget d k := by
  unfold w2NameFb
  split
  · cases firstTruthyField f w2NameFbFields with
    | none => rfl
    | some v => exact rget_rset_ne d "employeeName" k v h
  · rfl

theorem rget_w2SsnFb_ne (f : FieldMap) (d : Rec') (k : String) (h : k ≠ "employeeSSN") :
    rget (w2SsnFb f d) k = rget d k := by
  unfold w2SsnFb
  split
  · cases firstTruthyField f w2SsnFbFields with
    | none => rfl
    | some v => exact rget_rset_ne d "employeeSSN" k v h
  · rfl

theorem rget_w2AddrFb_ne (f : FieldMap) (d : Rec') (k : String) (h : k ≠ "employeeAddress") :
    rget (w2AddrFb f d) k = rget d k := by
  unfold w2AddrFb
  split
  · cases firstTruthyField f w2AddrFbFields with
    | none => rfl
    | some v => exact rget_rset_ne d "employeeAddress" k v h
  · rfl

theorem rget_ocrSetName_ne (pi : PersonalInfo) (d : Rec') (k : String) (h : k ≠ "employeeName") :
    rget (ocrSetName pi d) k = rget d k := by
  unfold ocrSetName
  cases pi.name with
  | none => rfl
  | some n =>
      dsimp only
      split
      · exact rget_rset_ne d "employeeName" k _ h
      · rfl

theorem rget_ocrSetSsn_ne (pi : PersonalInfo) (d : Rec') (k : String) (h : k ≠ "employeeSSN") :
    rget (ocrSetSsn pi d) k = rget d k := by
  unfold ocrSetSsn
  cases pi.ssn with
  | none => rfl
  | some n =>
      dsimp only
      split
      · exact rget_rset_ne d "employeeSSN" k _ h
      · rfl

theorem rget_ocrSetAddr_ne (pi : PersonalInfo) (d : Rec') (k : String) (h : k ≠ "employeeAddress") :
    rget (ocrSetAddr pi d) k = rget d k := by
  unfold ocrSetAddr
  cases pi.address with
  | none => rfl
  | some n =>
      dsimp only
      split
      · exact rget_rset_ne d "employeeAddress" k _ h
      · rfl

theorem ocrSetName_truthy (pi : PersonalInfo) (d : Rec')
    (h : truthyAt d "employeeName" = true) : ocrSetName pi d = d := by
  unfold ocrSetName
  cases pi.name with
  | none => rfl
  | some n => simp [h]

theorem ocrSetSsn_truthy (pi : PersonalInfo) (d : Rec')
    (h : truthyAt d "employeeSSN" = true) : ocrSetSsn pi d = d := by
  unfold ocrSetSsn
  cases pi.ssn with
  | none => rfl
  | some n => simp [h]

theorem ocrSetAddr_truthy (pi : PersonalInfo) (d : Rec')
    (h : truthyAt d "employeeAddress" = true) : ocrSetAddr pi d = d := by
  unfold ocrSetAddr
  cases pi.address with
  | none => rfl
  | some n => simp [h]

theorem rget_w2OcrFb_ne (b d : Rec') (k : String) (h1 : k ≠ "employeeName")
    (h2 : k ≠ "employeeSSN") (h3 : k ≠ "employeeAddress") :
    rget (w2OcrFb b d) k = rget d k := by
  unfold w2OcrFb
  split
  · rw [rget_ocrSetAddr_ne _ _ _ h3, rget_ocrSetSsn_ne _ _ _ h2, rget_ocrSetName_ne _ _ _ h1]
  · rfl

theorem rget_w2OcrFb_name_truthy (b d : Rec') (h : truthyAt d "employeeName" = true) :
    rget (w2OcrFb b d) "employeeName" = rget d "employeeName" := by
  unfold w2OcrFb
  split
  · rw [rget_ocrSetAddr_ne _ _ _ (by decide), rget_ocrSetSsn_ne _ _ _ (by decide),
      ocrSetName_truthy _ _ h]
  · rfl

theorem rget_w2OcrFb_ssn_truthy (b d : Rec') (h : truthyAt d "employeeSSN" = true) :
    rget (w2OcrFb b d) "employeeSSN" = rget d "employeeSSN" := by
  unfold w2OcrFb
  split
  · rw [rget_ocrSetAddr_ne _ _ _ (by decide)]
    have hs : truthyAt (ocrSetName (extractPersonalInfoFromOCR (strOfFullText b)) d)
        "employeeSSN" = true := by
      unfold truthyAt
      rw [rget_ocrSetName_ne _ _ _ (by decide)]
      unfold truthyAt at h
      exact h
    rw [ocrSetSsn_truthy _ _ hs, rget_ocrSetName_ne _ _ _ (by decide)]
  · rfl

theorem rget_w2OcrFb_addr_truthy (b d : Rec') (h : truthyAt d "employeeAddress" = true) :
    rget (w2OcrFb b d) "employeeAddress" = rget d "employeeAddress" := by
  unfold w2OcrFb
  split
  · have hs : truthyAt (ocrSetSsn (extractPersonalInfoFromOCR (strOfFullText b))
        (ocrSetName (extractPersonalInfoFromOCR (strOfFullText b)) d)) "employeeAddress" = true := by
      unfold truthyAt
      rw [rget_ocrSetSsn_ne _ _ _ (by decide), rget_ocrSetName_ne _ _ _ (by decide)]
      unfold truthyAt at h
      exact h
    rw [ocrSetAddr_truthy _ _ hs, rget_ocrSetSsn_ne _ _ _ (by decide),
      rget_ocrSetName_ne _ _ _ (by decide)]
  · rfl

theorem rget_w2AddrParse_ne (b d : Rec') (k : String) (h1 : k ≠ "employeeAddressStreet")
    (h2 : k ≠ "employeeCity") (h3 : k ≠ "employeeState") (h4 : k ≠ "employeeZipCode") :
    rget (w2AddrParse b d) k = rget d k := by
  unfold w2AddrParse
  split
  · split
    · rw [rget_rset_ne _ _ _ _ h4, rget_rset_ne _ _ _ _ h3, rget_rset_ne _ _ _ _ h2,
        rget_rset_ne _ _ _ _ h1]
    · rfl
  · rfl

theorem rget_w2WageOcr_ne (b d : Rec') (k : String) (h : k ≠ "wages") :
    rget (w2WageOcr b d) k = rget d k := by
  unfold w2WageOcr
  split
  · split
    · exact rget_rset_ne d "wages" k _ h
    · rfl
  · rfl

theorem rget_w2MapLoop_employeeName (f : FieldMap) (b : Rec') :
    rget (mapLoop f w2FieldMappings b) "employeeName" =
      (match fget f "Employee.Name" with
       | some v => some (coerceVal v)
       | none => rget b "employeeName") := by
  simp [mapLoop, w2FieldMappings, List.foldl, rget_applyEntry]

theorem rget_w2MapLoop_employeeSSN (f : FieldMap) (b : Rec') :
    rget (mapLoop f w2FieldMappings b) "employeeSSN" =
      (match fget f "Employee.SSN" with
       | some v => some (coerceVal v)
       | none => rget b "employeeSSN") := by
  simp [mapLoop, w2FieldMappings, List.foldl, rget_applyEntry]

theorem rget_w2MapLoop_employeeAddress (f : FieldMap) (b : Rec') :
    rget (mapLoop f w2FieldMappings b) "employeeAddress" =
      (match fget f "Employee.Address" with
       | some v => some (coerceVal v)
       | none => rget b "employeeAddress") := by
  simp [mapLoop, w2FieldMappings, List.foldl, rget_applyEntry]

theorem rget_w2MapLoop_employerName (f : FieldMap) (b : Rec') :
    rget (mapLoop f w2FieldMappings b) "employerName" =
      (match fget f "Employer.Name" with
       | some v => some (coerceVal v)
       | none => rget b "employerName") := by
  simp [mapLoop, w2FieldMappings, List.foldl, rget_applyEntry]

theorem rget_w2MapLoop_employerEIN (f : FieldMap) (b : Rec') :
    rget (mapLoop f w2FieldMappings b) "employerEIN" =
      (match fget f "Employer.EIN" with
       | some v => some (coerceVal v)
       | none => rget b "employerEIN") := by
  simp [mapLoop, w2FieldMappings, List.foldl, rget_applyEntry]

theorem rget_w2MapLoop_employerAddress (f : FieldMap) (b : Rec') :
    rget (mapLoop f w2FieldMappings b) "employerAddress" =
      (match fget f "Employer.Address" with
       | some v => some (coerceVal v)
       | none => rget b "employerAddress") := by
  simp [mapLoop, w2FieldMappings, List.foldl, rget_applyEntry]

theorem rget_w2Steps_ne (f : FieldMap) (b d : Rec') (k : String)
    (hn : k ≠ "employeeName") (hs : k ≠ "employeeSSN") (ha : k ≠ "employeeAddress")
    (h4 : k ≠ "employeeAddressStreet") (h5 : k ≠ "employeeCity") (h6 : k ≠ "employeeState")
    (h7 : k ≠ "employeeZipCode") (h8 : k ≠ "wages") :
    rget (w2WageOcr b (w2AddrParse b (w2OcrFb b (w2AddrFb f (w2SsnFb f (w2NameFb f d)))))) k
      = rget d k := by
  rw [rget_w2WageOcr_ne _ _ _ h8, rget_w2AddrParse_ne _ _ _ h4 h5 h6 h7,
    rget_w2OcrFb_ne _ _ _ hn hs ha, rget_w2AddrFb_ne _ _ _ ha, rget_w2SsnFb_ne _ _ _ hs,
    rget_w2NameFb_ne _ _ _ hn]

theorem w2_employerName_coerced (f : FieldMap) (b : Rec') (v : Value)
    (hv : fget f "Employer.Name" = some v) :
    rget (processW2Fields f b) "employerName" = some (coerceVal v) := by
  unfold processW2Fields
  rw [rget_w2Steps_ne f b _ _ (by decide) (by decide) (by decide) (by decide) (by decide)
    (by decide) (by decide) (by decide)]
  rw [rget_w2MapLoop_employerName, hv]

theorem w2_employerEIN_coerced (f : FieldMap) (b : Rec') (v : Value)
    (hv : fget f "Employer.EIN" = some v) :
    rget (processW2Fields f b) "employerEIN" = some (coerceVal v) := by
  unfold processW2Fields
  rw [rget_w2Steps_ne f b _ _ (by decide) (by decide) (by decide) (by decide) (by decide)
    (by decide) (by decide) (by decide)]
  rw [rget_w2MapLoop_employerEIN, hv]

theorem w2_employerAddress_coerced (f : FieldMap) (b : Rec') (v : Value)
    (hv : fget f "Employer.Address" = some v) :
    rget (processW2Fields f b) "employerAddress" = some (coerceVal v) := by
  unfold processW2Fields
  rw [rget_w2Steps_ne f b _ _ (by decide) (by decide) (by decide) (by decide) (by decide)
    (by decide) (by decide) (by decide)]
  rw [rget_w2MapLoop_employerAddress, hv]

theorem w2_employeeName_restored (f : FieldMap) (b : Rec') (s : String) (hs : s ≠ "")
    (hv : fget f "Employee.Name" = some (.str s)) (h0 : parseAmountV (.str s) = .fin 0) :
    rget (processW2Fields f b) "employeeName" = some (.str s) := by
  have hd0 : rget (mapLoop f w2FieldMappings b) "employeeName" = some (.num (.fin 0)) := by
    rw [rget_w2MapLoop_employeeName, hv]
    simp [coerceVal, h0]
  have ht0 : truthyAt (mapLoop f w2FieldMappings b) "employeeName" = false := by
    rw [truthyAt_eq_of_rget _ _ _ hd0]
    decide
  have hff : firstTruthyField f w2NameFbFields = some (.str s) := by
    unfold w2NameFbFields firstTruthyField
    rw [hv]
    simp [Value.jsTruthy, hs]
  have hd1 : rget (w2NameFb f (mapLoop f w2FieldMappings b)) "employeeName" = some (.str s) := by
    unfold w2NameFb
    rw [ht0, hff]
    simp [rget_rset_eq]
  have ht2 : truthyAt (w2AddrFb f (w2SsnFb f (w2NameFb f (mapLoop f w2FieldMappings b))))
      "employeeName" = true := by
    unfold truthyAt
    rw [rget_w2AddrFb_ne _ _ _ (by decide), rget_w2SsnFb_ne _ _ _ (by decide), hd1]
    simp [Value.jsTruthy, hs]
  unfold processW2Fields
  rw [rget_w2WageOcr_ne _ _ _ (by decide),
    rget_w2AddrParse_ne _ _ _ (by decide) (by decide) (by decide) (by decide),
    rget_w2OcrFb_name_truthy _ _ ht2,
    rget_w2AddrFb_ne _ _ _ (by decide), rget_w2SsnFb_ne _ _ _ (by decide), hd1]

theorem w2_employeeSSN_restored (f : FieldMap) (b : Rec') (s : String) (hs : s ≠ "")
    (hv : fget f "Employee.SSN" = some (.str s)) (h0 : parseAmountV (.str s) = .fin 0) :
    rget (processW2Fields f b) "employeeSSN" = some (.str s) := by
  have hd0 : rget (mapLoop f w2FieldMappings b) "employeeSSN" = some (.num (.fin 0)) := by
    rw [rget_w2MapLoop_employeeSSN, hv]
    simp [coerceVal, h0]
  have ht1 : truthyAt (w2NameFb f (mapLoop f w2FieldMappings b)) "employeeSSN" = false := by
    unfold truthyAt
    rw [rget_w2NameFb_ne _ _ _ (by decide), hd0]
    decide
  have hff : firstTruthyField f w2SsnFbFields = some (.str s) := by
    unfold w2SsnFbFields firstTruthyField
    rw [hv]
    simp [Value.jsTruthy, hs]
  have hd2 : rget (w2SsnFb f (w2NameFb f (mapLoop f w2FieldMappings b))) "employeeSSN"
      = some (.str s) := by
    unfold w2SsnFb
    rw [ht1, hff]
    simp [rget_rset_eq]
  have ht3 : truthyAt (w2AddrFb f (w2SsnFb f (w2NameFb f (mapLoop f w2FieldMappings b))))
      "employeeSSN" = true := by
    unfold truthyAt
    rw [rget_w2AddrFb_ne _ _ _ (by decide), hd2]
    simp [Value.jsTruthy, hs]
  unfold processW2Fields
  rw [rget_w2WageOcr_ne _ _ _ (by decide),
    rget_w2AddrParse_ne _ _ _ (by decide) (by decide) (by decide) (by decide),
    rget_w2OcrFb_ssn_truthy _ _ ht3,
    rget_w2AddrFb_ne _ _ _ (by decide), hd2]

theorem w2_employeeAddress_restored (f : FieldMap) (b : Rec') (s : String) (hs : s ≠ "")
    (hv : fget f "Employee.Address" = some (.str s)) (h0 : parseAmountV (.str s) = .fin 0) :
    rget (processW2Fields f b) "employeeAddress" = some (.str s) := by
  have hd0 : rget (mapLoop f w2FieldMappings b) "employeeAddress" = some (.num (.fin 0)) := by
    rw [rget_w2MapLoop_employeeAddress, hv]
    simp [coerceVal, h0]
  have ht2 : truthyAt (w2SsnFb f (w2NameFb f (mapLoop f w2FieldMappings b)))
      "employeeAddress" = false := by
    unfold truthyAt
    rw [rget_w2SsnFb_ne _ _ _ (by decide), rget_w2NameFb_ne _ _ _ (by decide), hd0]
    decide
  have hff : firstTruthyField f w2AddrFbFields = some (.str s) := by
    unfold w2AddrFbFields firstTruthyField
    rw [hv]
    simp [Value.jsTruthy, hs]
  have hd3 : rget (w2AddrFb f (w2SsnFb f (w2NameFb f (mapLoop f w2FieldMappings b))))
      "employeeAddress" = some (.str s) := by
    unfold w2AddrFb
    rw [ht2, hff]
    simp [rget_rset_eq]
  have ht3 : truthyAt (w2AddrFb f (w2SsnFb f (w2NameFb f (mapLoop f w2FieldMappings b))))
      "employeeAddress" = true := by
    rw [truthyAt_eq_of_rget _ _ _ hd3]
    simp [Value.jsTruthy, hs]
  unfold processW2Fields
  rw [rget_w2WageOcr_ne _ _ _ (by decide),
    rget_w2AddrParse_ne _ _ _ (by decide) (by decide) (by decide) (by decide),
    rget_w2OcrFb_addr_truthy _ _ ht3, hd3]

/-! ### Claim C1 -/

/-- C1 counterexample: the claim says explicitly non-numeric canonical keys
    (employerName, payerName, ...) receive the provider's string unchanged,
    but the mapping loops coerce every non-number through parseAmount, so a
    provider string "ACME CORP" is stored as the number 0, not the string. -/
theorem C1_counterexample :
    rget (processW2Fields [("Employer.Name", Value.str "ACME CORP")]
        (rset emptyRec "fullText" (Value.str ""))) "employerName"
      = some (Value.num (.fin 0)) ∧
    rget (process1099IntFields [("Payer.Name", Value.str "ACME CORP")]
        (rset emptyRec "fullText" (Value.str ""))) "payerName"
      = some (Value.num (.fin 0)) ∧
    Value.num (.fin 0) ≠ Value.str "ACME CORP" := by
  decide

/-- C1 (amended): every provider field whose value is defined is copied to
    its canonical key; a numeric value is copied unchanged, and every
    non-numeric value — including strings bound for name/address/TIN keys —
    is passed through the Amount Normalizer (coerceVal), so non-numeric
    canonical keys receive the normalized number at the mapping stage. -/
theorem C1_amended_normalizer_on_all_nonnumbers :
    (∀ az can, (az, can) ∈ int1099FieldMappings →
      ∀ (f : FieldMap) (b : Rec') (v : Value), fget f az = some v →
        rget (process1099IntFields f b) can = some (coerceVal v)) ∧
    (∀ (f : FieldMap) (b : Rec') (v : Value), fget f "Employer.Name" = some v →
      rget (processW2Fields f b) "employerName" = some (coerceVal v)) ∧
    (∀ n : JNum, coerceVal (.num n) = .num n) ∧
    (∀ s : String, coerceVal (.str s) = .num (parseAmountV (.str s))) := by
  refine ⟨?_, ?_, fun n => rfl, fun s => rfl⟩
  · intro az can hmem f b v hv
    fin_cases hmem <;>
      simp [process1099IntFields, mapLoop, int1099FieldMappings, List.foldl,
        rget_applyEntry, hv]
  · intro f b v hv
    exact w2_employerName_coerced f b v hv

/-- C1 witness: the amended mapping behaviour at concrete inputs. -/
theorem C1_witness :
    rget (process1099IntFields [("Payer.Name", Value.str "ACME")] emptyRec) "payerName"
      = some (coerceVal (Value.str "ACME")) :=
  C1_amended_normalizer_on_all_nonnumbers.1 "Payer.Name" "payerName" (by decide)
    [("Payer.Name", Value.str "ACME")] emptyRec (Value.str "ACME") (by decide)

/-! ### Claim C10 -/

/-- C10 counterexample: the claim quantifies over every string value that
    parseAmount maps to 0, but for the empty string the coerced 0 is falsy
    and the raw provider value "" is falsy too, so the field-variant
    fallback loop skips it and employeeName stays the number 0, not the
    provider's original string. -/
theorem C10_counterexample :
    parseAmountV (Value.str "") = .fin 0 ∧
    rget (processW2Fields [("Employee.Name", Value.str "")]
        (rset emptyRec "fullText" (Value.str ""))) "employeeName"
      = some (Value.num (.fin 0)) := by
  decide

/-- C10 (amended): for every W-2 field map in which Employee.Name (likewise
    Employee.SSN, Employee.Address) carries a non-empty string value that
    parseAmount maps to 0, processW2Fields nevertheless returns the
    provider's original string under the canonical key: the mapping loop
    stores the falsy 0 and the field-variant fallback loop re-reads the raw
    value.  No such fallback exists for employerName, employerEIN or
    employerAddress, which keep the coerced 0. -/
theorem C10_amended_fallback_restores_nonempty (f : FieldMap) (b : Rec') (s : String)
    (hs : s ≠ "") (h0 : parseAmountV (.str s) = .fin 0) :
    (fget f "Employee.Name" = some (.str s) →
      rget (processW2Fields f b) "employeeName" = some (.str s)) ∧
    (fget f "Employee.SSN" = some (.str s) →
      rget (processW2Fields f b) "employeeSSN" = some (.str s)) ∧
    (fget f "Employee.Address" = some (.str s) →
      rget (processW2Fields f b) "employeeAddress" = some (.str s)) ∧
    (fget f "Employer.Name" = some (.str s) →
      rget (processW2Fields f b) "employerName" = some (.num (.fin 0))) ∧
    (fget f "Employer.EIN" = some (.str s) →
      rget (processW2Fields f b) "employerEIN" = some (.num (.fin 0))) ∧
    (fget f "Employer.Address" = some (.str s) →
      rget (processW2Fields f b) "employerAddress" = some (.num (.fin 0))) := by
  refine ⟨fun hv => w2_employeeName_restored f b s hs hv h0,
    fun hv => w2_employeeSSN_restored f b s hs hv h0,
    fun hv => w2_employeeAddress_restored f b s hs hv h0,
    fun hv => ?_, fun hv => ?_, fun hv => ?_⟩
  · rw [w2_employerName_coerced f b _ hv]
    simp [coerceVal, h0]
  · rw [w2_employerEIN_coerced f b _ hv]
    simp [coerceVal, h0]
  · rw [w2_employerAddress_coerced f b _ hv]
    simp [coerceVal, h0]

/-- C10 witness: the fallback restores a concrete non-numeric name. -/
theorem C10_witness :
    rget (processW2Fields [("Employee.Name", Value.str "JOHN DOE")]
        (rset emptyRec "fullText" (Value.str ""))) "employeeName"
      = some (Value.str "JOHN DOE") :=
  (C10_amended_fallback_restores_nonempty
    [("Employee.Name", Value.str "JOHN DOE")] (rset emptyRec "fullText" (Value.str ""))
    "JOHN DOE" (by decide) (by decide)).1 (by decide)

/-! ### Claim C2 -/

/-- C2 counterexample: the claim says the key-value merge also happens when
    a primary document with fields exists and that a pair never overwrites
    an existing key such as fullText; in the code the dispatch returns
    early, so the pair ("Box 2", "5") is dropped, and in the no-fields path
    a pair keyed "fullText" does overwrite the stored full text. -/
theorem C2_counterexample :
    rget (extractTaxDocumentFields
        (RawResult.mk (some "T") [RawDoc.mk (some [])]
          [KVPair.mk (some "Box 2") (some "5")]) "OTHER") "Box 2" = none ∧
    trimJS "Box 2" ≠ "" ∧ trimJS "5" ≠ "" ∧
    rget (extractTaxDocumentFields
        (RawResult.mk (some "T") [] [KVPair.mk (some "fullText") (some "X")]) "W2")
      "fullText" = some (Value.str "X") := by
  decide

/-- C2 (amended): when a primary document with a field map exists the
    orchestrator returns the dispatched mapping directly and the
    key-value pairs are ignored; the merge runs only when there is no such
    document, and then every pair with non-empty trimmed key and value is
    written unconditionally, overwriting any existing key. -/
theorem C2_amended_merge_only_without_fields (r : RawResult) (dt : String) :
    (∀ d ds f, r.documents = d :: ds → d.fields = some f →
      extractTaxDocumentFields r dt = dispatchFields dt f (baseRec r)) ∧
    ((r.documents = [] ∨ (∃ d ds, r.documents = d :: ds ∧ d.fields = none)) →
      extractTaxDocumentFields r dt = r.keyValuePairs.foldl kvpStep (baseRec r)) ∧
    (∀ (rec : Rec') (kc vc : String), trimJS kc ≠ "" → trimJS vc ≠ "" →
      rget (kvpStep rec (KVPair.mk (some kc) (some vc))) (trimJS kc)
        = some (.str (trimJS vc))) := by
  refine ⟨?_, ?_, ?_⟩
  · intro d ds f hd hf
    simp only [extractTaxDocumentFields, hd, hf]
  · intro hcase
    rcases hcase with h | ⟨d, ds, hd, hf⟩
    · simp only [extractTaxDocumentFields, h]
    · simp only [extractTaxDocumentFields, hd, hf]
  · intro rec kc vc h1 h2
    simp [kvpStep, h1, h2, rget_rset_eq]

/-- C2 witness: the merge clause applied at a concrete no-document result. -/
theorem C2_witness :
    extractTaxDocumentFields
        (RawResult.mk (some "T") [] [KVPair.mk (some "k") (some "v")]) "W2"
      = List.foldl kvpStep
          (baseRec (RawResult.mk (some "T") [] [KVPair.mk (some "k") (some "v")]))
          [KVPair.mk (some "k") (some "v")] :=
  (C2_amended_merge_only_without_fields
    (RawResult.mk (some "T") [] [KVPair.mk (some "k") (some "v")]) "W2").2.1 (Or.inl rfl)

/-! ### Claim C3 -/

theorem scanA_sfx (m : Option Char → List Char → Option β) (prev : Option Char)
    (cs : List Char) (b : β) (h : scanA m prev cs = some b) :
    ∃ p' cs', cs' <:+ cs ∧ m p' cs' = some b := by
  induction cs generalizing prev with
  | nil => exact ⟨prev, [], List.suffix_refl [], h⟩
  | cons c r ih =>
      simp only [scanA] at h
      rcases orElse_eq_some _ _ _ h with h1 | h2
      · exact ⟨prev, c :: r, List.suffix_refl _, h1⟩
      · obtain ⟨p', cs', hs, hm⟩ := ih (some c) h2
        exact ⟨p', cs', hs.trans (List.suffix_cons c r), hm⟩

theorem lit1_head (cs : List Char) (k : List Char → Option β) (b : β)
    (h : litCI "1".data cs k = some b) : '1' ∈ cs := by
  have hd : "1".data = ['1'] := rfl
  rw [hd] at h
  obtain ⟨c, r, rfl, hci⟩ := litCI_cons_head '1' [] cs k b h
  rw [ciMatch_one c hci]
  exact List.mem_cons_self '1' r

theorem litw_bad (cs : List Char) (k : List Char → Option β) (b : β)
    (h : litCI "wages".data cs k = some b) : ∃ c ∈ cs, c = '1' ∨ c = 'w' ∨ c = 'W' := by
  have hd : "wages".data = 'w' :: "ages".data := rfl
  rw [hd] at h
  obtain ⟨c, r, rfl, hci⟩ := litCI_cons_head 'w' _ cs k b h
  rcases ciMatch_w c hci with h' | h' <;>
    exact ⟨c, List.mem_cons_self c r, Or.inr (by rw [h']; simp)⟩

theorem wageP1_bad (prev : Option Char) (cs : List Char) (cap : String)
    (h : wageP1at prev cs = some cap) : ∃ c ∈ cs, c = '1' ∨ c = 'w' ∨ c = 'W' := by
  unfold wageP1at at h
  split at h
  · exact ⟨'1', lit1_head _ _ _ h, Or.inl rfl⟩
  · simp at h

theorem wageP2_bad (prev : Option Char) (cs : List Char) (cap : String)
    (h : wageP2at prev cs = some cap) : ∃ c ∈ cs, c = '1' ∨ c = 'w' ∨ c = 'W' := by
  unfold wageP2at at h
  split at h
  · exact ⟨'1', lit1_head _ _ _ h, Or.inl rfl⟩
  · simp at h

theorem wageP3_bad (prev : Option Char) (cs : List Char) (cap : String)
    (h : wageP3at prev cs = some cap) : ∃ c ∈ cs, c = '1' ∨ c = 'w' ∨ c = 'W' := by
  unfold wageP3at at h
  split at h
  · exact ⟨'1', lit1_head _ _ _ h, Or.inl rfl⟩
  · simp at h

theorem wageP4_bad (prev : Option Char) (cs : List Char) (cap : String)
    (h : wageP4at prev cs = some cap) : ∃ c ∈ cs, c = '1' ∨ c = 'w' ∨ c = 'W' := by
  unfold wageP4at at h
  split at h
  · exact ⟨'1', lit1_head _ _ _ h, Or.inl rfl⟩
  · simp at h

theorem wageP5_bad (prev : Option Char) (cs : List Char) (cap : String)
    (h : wageP5at prev cs = some cap) : ∃ c ∈ cs, c = '1' ∨ c = 'w' ∨ c = 'W' := by
  unfold wageP5at at h
  split at h
  · unfold optT at h
    rcases orElse_eq_some _ _ _ h with h1 | h2
    · obtain ⟨cs1, hs1, h1'⟩ := litCI_sfx _ _ _ _ h1
      obtain ⟨cs2, hs2, h2'⟩ := gStar_sfx _ _ _ _ h1'
      exact ⟨'1', hs1.subset (hs2.subset (lit1_head _ _ _ h2')), Or.inl rfl⟩
    · exact ⟨'1', lit1_head _ _ _ h2, Or.inl rfl⟩
  · simp at h

theorem wageP6_bad (prev : Option Char) (cs : List Char) (cap : String)
    (h : wageP6at prev cs = some cap) : ∃ c ∈ cs, c = '1' ∨ c = 'w' ∨ c = 'W' := by
  unfold wageP6at at h
  exact litw_bad _ _ _ h

theorem wageP7_bad (prev : Option Char) (cs : List Char) (cap : String)
    (h : wageP7at prev cs = some cap) : ∃ c ∈ cs, c = '1' ∨ c = 'w' ∨ c = 'W' := by
  unfold wageP7at at h
  split at h
  · exact ⟨'1', lit1_head _ _ _ h, Or.inl rfl⟩
  · simp at h

theorem wageP8_bad (prev : Option Char) (cs : List Char) (cap : String)
    (h : wageP8at prev cs = some cap) : ∃ c ∈ cs, c = '1' ∨ c = 'w' ∨ c = 'W' := by
  unfold wageP8at at h
  split at h
  · exact ⟨'1', lit1_head _ _ _ h, Or.inl rfl⟩
  · simp at h

theorem scanS_none_of_bad (m : Option Char → List Char → Option String) (t : String)
    (hm : ∀ prev cs cap, m prev cs = some cap → ∃ c ∈ cs, c = '1' ∨ c = 'w' ∨ c = 'W')
    (h : ∀ c ∈ t.data, ¬(c = '1' ∨ c = 'w' ∨ c = 'W')) :
    scanS m t = none := by
  cases hs : scanS m t with
  | none => rfl
  | some cap =>
      exfalso
      unfold scanS at hs
      obtain ⟨p', cs', hsfx, hm'⟩ := scanA_sfx m none t.data cap hs
      obtain ⟨c, hmem, hbad⟩ := hm p' cs' cap hm'
      exact h c (hsfx.subset hmem) hbad

theorem extractWages_zero_of_charset (t : String)
    (h : ∀ c ∈ t.data, ¬(c = '1' ∨ c = 'w' ∨ c = 'W')) :
    extractWagesFromOCR t = .fin 0 := by
  have n1 := scanS_none_of_bad wageP1at t wageP1_bad h
  have n2 := scanS_none_of_bad wageP2at t wageP2_bad h
  have n3 := scanS_none_of_bad wageP3at t wageP3_bad h
  have n4 := scanS_none_of_bad wageP4at t wageP4_bad h
  have n5 := scanS_none_of_bad wageP5at t wageP5_bad h
  have n6 := scanS_none_of_bad wageP6at t wageP6_bad h
  have n7 := scanS_none_of_bad wageP7at t wageP7_bad h
  have n8 := scanS_none_of_bad wageP8at t wageP8_bad h
  simp [extractWagesFromOCR, wagePatterns, firstWage, wageTry, n1, n2, n3, n4, n5, n6, n7, n8]

/-- C3 counterexample: the text "Dependents: 1 250" contains no textual
    variant of the Box-1 wage label (no "wages", no "box 1" in any case),
    yet wage recovery returns 250: the generic fallback pattern
    (?:Box\s*)?1\s+amount fires on any digit 1 followed by a number. -/
theorem C3_counterexample :
    containsCI "wages" "Dependents: 1 250" = false ∧
    containsCI "box 1" "Dependents: 1 250" = false ∧
    extractWagesFromOCR "Dependents: 1 250" = .fin 250 := by
  decide

/-- C3 (amended): for every OCR text containing neither the digit 1 nor
    the letter w (so in particular no Box-1 label variant, no bare
    "1 amount" occurrence and no "Wages and tips" phrase), wage recovery
    recovers no wage: extractWagesFromOCR returns 0, the W-2 record's
    wages key stays unset at the mapping stage, and the zero default is
    applied only in the typed wrapper. -/
theorem C3_amended_no_label_no_wage (t : String)
    (h : ∀ c ∈ t.data, ¬(c = '1' ∨ c = 'w' ∨ c = 'W')) :
    extractWagesFromOCR t = .fin 0 ∧
    rget (processW2Fields [] (rset emptyRec "fullText" (.str t))) "wages" = none ∧
    rget (processW2DocumentPure (processW2Fields [] (rset emptyRec "fullText" (.str t))))
      "wages" = some (.num (.fin 0)) := by
  have hw := extractWages_zero_of_charset t h
  have hbase : rget (rset emptyRec "fullText" (Value.str t)) "wages" = none := by
    simp [rget, rset, emptyRec]
  have hsf : strOfFullText (rset emptyRec "fullText" (Value.str t)) = t := by
    simp [strOfFullText, rget, rset]
  have hpipe : rget (processW2Fields [] (rset emptyRec "fullText" (.str t))) "wages" = none := by
    unfold processW2Fields
    rw [mapLoop_nilFields]
    have hd : rget (w2AddrParse (rset emptyRec "fullText" (.str t))
        (w2OcrFb (rset emptyRec "fullText" (.str t))
          (w2AddrFb [] (w2SsnFb [] (w2NameFb [] (rset emptyRec "fullText" (.str t)))))))
        "wages" = none := by
      rw [rget_w2AddrParse_ne _ _ _ (by decide) (by decide) (by decide) (by decide),
        rget_w2OcrFb_ne _ _ _ (by decide) (by decide) (by decide),
        rget_w2AddrFb_ne _ _ _ (by decide), rget_w2SsnFb_ne _ _ _ (by decide),
        rget_w2NameFb_ne _ _ _ (by decide), hbase]
    have htd := truthyAt_false_of_rget_none _ _ hd
    unfold w2WageOcr
    rw [htd, hsf, hw]
    have hg : (JNum.fin 0).gtZero = false := by decide
    rw [hg]
    simp [hd]
  refine ⟨hw, hpipe, ?_⟩
  have hp' : processW2Fields [] (rset emptyRec "fullText" (.str t)) "wages" = none := hpipe
  simp [processW2DocumentPure, spreadOver, hp', w2Literal, rget, rset, hpipe,
    parseAmount, numOrZero, JNum.truthy]

/-- C3 witness: the amended statement at a concrete label-free text. -/
theorem C3_witness :
    extractWagesFromOCR "ABC" = .fin 0 ∧
    rget (processW2Fields [] (rset emptyRec "fullText" (.str "ABC"))) "wages" = none ∧
    rget (processW2DocumentPure (processW2Fields [] (rset emptyRec "fullText" (.str "ABC"))))
      "wages" = some (.num (.fin 0)) :=
  C3_amended_no_label_no_wage "ABC" (by decide)

/-! ### Claim C4 -/

/-- C4: every internal mapping, recovery and decomposition function is
    total and degrades to a defined default: unparsable amounts and
    non-number shapes normalize to 0, empty OCR text recovers nothing,
    the empty address decomposes to four empty strings, and absent
    provider fields leave the canonical keys unset. -/
theorem C4_total_default_degradation :
    (∀ s : String, parseFloatJS (cleanAmount s) = .nan → parseAmount (some (.str s)) = .fin 0) ∧
    (∀ b : Bool, parseAmount (some (.other b)) = .fin 0) ∧
    parseAmount none = .fin 0 ∧
    extractPersonalInfoFromOCR "" = ⟨none, none, none⟩ ∧
    (∀ ocr : String, extractAddressParts "" ocr = ⟨"", "", "", ""⟩) ∧
    extractWagesFromOCR "" = .fin 0 ∧
    rget (processW2Fields [] (rset emptyRec "fullText" (.str ""))) "wages" = none ∧
    rget (processW2Fields [] (rset emptyRec "fullText" (.str ""))) "employeeName" = none ∧
    rget (process1099IntFields [] (rset emptyRec "fullText" (.str ""))) "interestIncome"
      = none := by
  refine ⟨?_, fun b => rfl, rfl, by decide, fun ocr => rfl, by decide, by decide, by decide,
    by decide⟩
  intro s h
  simp [parseAmount, parseAmountV, h, JNum.isNaN]

/-- C4 witness: the degradation clauses at concrete inputs. -/
theorem C4_witness :
    parseAmount (some (.str "n/a")) = .fin 0 ∧
    extractAddressParts "" "some ocr" = ⟨"", "", "", ""⟩ :=
  ⟨C4_total_default_degradation.1 "n/a" (by decide),
   C4_total_default_degradation.2.2.2.2.1 "some ocr"⟩

/-! ### Claim C5 -/

/-- The decomposition core of the empty normalized address resolves no
    street, city stays empty, and state/zip pass through. -/
theorem addrCore_nil (st z : String) : (addrCore "" st z).1 = "" := rfl

theorem extractAddressParts_eq (a ocr : String) (ha : a ≠ "") :
    extractAddressParts a ocr =
      ⟨if (addrCore (normalizeAddr a) (addrState1 a ocr) (addrZip0 a)).1 = ""
          then normalizeAddr a
          else (addrCore (normalizeAddr a) (addrState1 a ocr) (addrZip0 a)).1,
        (addrCore (normalizeAddr a) (addrState1 a ocr) (addrZip0 a)).2.1,
        (addrCore (normalizeAddr a) (addrState1 a ocr) (addrZip0 a)).2.2.1,
        (addrCore (normalizeAddr a) (addrState1 a ocr) (addrZip0 a)).2.2.2⟩ := by
  unfold extractAddressParts
  rw [if_neg ha]

/-- C5 counterexample: the claim says street is empty only when the input
    itself is empty, but a whitespace-only input normalizes to the empty
    string and yields an empty street. -/
theorem C5_counterexample :
    (" " : String) ≠ "" ∧ (extractAddressParts " " "").street = "" := by
  decide

/-- C5 (amended): when no structural parsing branch resolves a street the
    decomposer returns the full normalized input as street, and the street
    is empty exactly when the normalized (trimmed) input is empty — never
    an error. -/
theorem C5_amended_street_fallback (a ocr : String) :
    (preStreet a ocr = "" → (extractAddressParts a ocr).street = normalizeAddr a) ∧
    ((extractAddressParts a ocr).street = "" ↔ normalizeAddr a = "") := by
  by_cases ha : a = ""
  · subst ha
    exact ⟨fun _ => rfl, Iff.intro (fun _ => rfl) (fun _ => rfl)⟩
  · have hP : preStreet a ocr
        = (addrCore (normalizeAddr a) (addrState1 a ocr) (addrZip0 a)).1 := by
      unfold preStreet
      rw [if_neg ha]
    refine ⟨?_, ?_⟩
    · intro hp
      rw [hP] at hp
      rw [extractAddressParts_eq a ocr ha]
      simp only [hp, if_pos]
    · rw [extractAddressParts_eq a ocr ha]
      by_cases hc : (addrCore (normalizeAddr a) (addrState1 a ocr) (addrZip0 a)).1 = ""
      · rw [if_pos hc]
      · rw [if_neg hc]
        constructor
        · intro h1
          exact absurd h1 hc
        · intro hn
          exfalso
          apply hc
          rw [hn]
          exact addrCore_nil _ _

/-- C5 witness: a structureless input falls back to the normalized input. -/
theorem C5_witness :
    preStreet "," "" = "" ∧ (extractAddressParts "," "").street = normalizeAddr "," :=
  ⟨by decide, (C5_amended_street_fallback "," "").1 (by decide)⟩

/-! ### Claim C6 -/

/-- C6: for the input "123 MAIN ST, DALLAS, TX 75201", with any auxiliary
    OCR text, the decomposer returns exactly street "123 MAIN ST",
    city "DALLAS", state "TX", zipCode "75201". -/
theorem C6_address_roundtrip (ocr : String) :
    extractAddressParts "123 MAIN ST, DALLAS, TX 75201" ocr
      = ⟨"123 MAIN ST", "DALLAS", "TX", "75201"⟩ := by
  have h0 : addrState0 "123 MAIN ST, DALLAS, TX 75201" = "TX" := by decide
  have h1 : addrState1 "123 MAIN ST, DALLAS, TX 75201" ocr = "TX" := by
    unfold addrState1
    rw [h0]
    simp
  rw [extractAddressParts_eq _ _ (by decide), h1]
  decide

/-! ### Claim C7 -/

/-- C7: whenever the split-field name pattern fires with first-name
    capture "SAI KUMAR" and last-name capture "POTURI", name recovery
    returns "SAI KUMAR POTURI": the captures are trimmed, joined with a
    single space, and whitespace runs are collapsed. -/
theorem C7_name_concatenation (t : String)
    (h : nameP1 t = some ("SAI KUMAR", some "POTURI")) :
    (extractPersonalInfoFromOCR t).name = some "SAI KUMAR POTURI" := by
  have hs : scanS nameP1at t = some ("SAI KUMAR", some "POTURI") := h
  simp only [extractPersonalInfoFromOCR, nameRecovery, namePatterns, nameLoop, hs]
  rw [if_pos (show ("SAI KUMAR" : String) ≠ "" from by decide)]
  decide

/-- C7 witness: the split-name pattern fires on a concrete W-2 OCR line. -/
theorem C7_witness :
    nameP1 "e Employee\x27s first name and initial SAI KUMAR Last name POTURI"
      = some ("SAI KUMAR", some "POTURI") ∧
    (extractPersonalInfoFromOCR
        "e Employee\x27s first name and initial SAI KUMAR Last name POTURI").name
      = some "SAI KUMAR POTURI" :=
  ⟨by decide, C7_name_concatenation _ (by decide)⟩

/-! ### Claim C8 -/

/-- C8: the typed wrappers always contain their fixed key set, including
    the documentType tag; named string keys default to the empty string
    when missing from the inner record, named amount keys default to 0 via
    the Amount Normalizer when missing, and every key the inner record
    produced is present in the output (with the inner value, because the
    spread comes last). -/
theorem C8_typed_wrappers_defaults (e : Rec') (dt : String) :
    ((rget (processW2DocumentPure e) "documentType").isSome = true ∧
     (rget e "documentType" = none →
        rget (processW2DocumentPure e) "documentType" = some (.str "FORM_W2")) ∧
     (∀ k ∈ w2StringKeys, rget e k = none →
        rget (processW2DocumentPure e) k = some (.str "")) ∧
     (∀ k ∈ w2AmountKeys, rget e k = none →
        rget (processW2DocumentPure e) k = some (.num (.fin 0))) ∧
     (∀ k v, rget e k = some v → rget (processW2DocumentPure e) k = some v)) ∧
    ((rget (process1099DocumentPure dt e) "documentType").isSome = true ∧
     (rget e "documentType" = none →
        rget (process1099DocumentPure dt e) "documentType" = some (.str dt)) ∧
     (∀ k ∈ f1099StringKeys, rget e k = none →
        rget (process1099DocumentPure dt e) k = some (.str "")) ∧
     (∀ k ∈ f1099AmountKeys, rget e k = none →
        rget (process1099DocumentPure dt e) k = some (.num (.fin 0))) ∧
     (∀ k v, rget e k = some v → rget (process1099DocumentPure dt e) k = some v)) := by
  have hz : numOrZero (parseAmount none) = .fin 0 := by decide
  constructor
  · refine ⟨?_, ?_, ?_, ?_, ?_⟩
    · cases h : e "documentType" with
      | some v => simp [processW2DocumentPure, spreadOver, rget, h]
      | none => simp [processW2DocumentPure, spreadOver, rget, h, w2Literal, rset]
    · intro h
      simp only [rget] at h
      simp [processW2DocumentPure, spreadOver, rget, h, w2Literal, rset]
    · intro k hk he
      simp only [rget] at he
      simp only [w2StringKeys, List.mem_cons, List.not_mem_nil, or_false] at hk
      rcases hk with rfl | rfl | rfl | rfl | rfl <;>
        simp [processW2DocumentPure, spreadOver, rget, he, w2Literal, rset, jsOrV]
    · intro k hk he
      simp only [rget] at he
      simp only [w2AmountKeys, List.mem_cons, List.not_mem_nil, or_false] at hk
      rcases hk with rfl | rfl | rfl | rfl | rfl | rfl | rfl | rfl <;>
        simp [processW2DocumentPure, spreadOver, rget, he, w2Literal, rset, hz]
    · intro k v h
      simp only [rget] at h
      simp [processW2DocumentPure, spreadOver, rget, h]
  · refine ⟨?_, ?_, ?_, ?_, ?_⟩
    · cases h : e "documentType" with
      | some v => simp [process1099DocumentPure, spreadOver, rget, h]
      | none => simp [process1099DocumentPure, spreadOver, rget, h, f1099Literal, rset]
    · intro h
      simp only [rget] at h
      simp [process1099DocumentPure, spreadOver, rget, h, f1099Literal, rset]
    · intro k hk he
      simp only [rget] at he
      simp only [f1099StringKeys, List.mem_cons, List.not_mem_nil, or_false] at hk
      rcases hk with rfl | rfl | rfl | rfl <;>
        simp [process1099DocumentPure, spreadOver, rget, he, f1099Literal, rset, jsOrV]
    · intro k hk he
      simp only [rget] at he
      simp only [f1099AmountKeys, List.mem_cons, List.not_mem_nil, or_false] at hk
      rcases hk with rfl | rfl | rfl | rfl <;>
        simp [process1099DocumentPure, spreadOver, rget, he, f1099Literal, rset, hz]
    · intro k v h
      simp only [rget] at h
      simp [process1099DocumentPure, spreadOver, rget, h]

/-- C8 witness: the defaults at the empty inner record. -/
theorem C8_witness :
    rget (processW2DocumentPure emptyRec) "wages" = some (.num (.fin 0)) ∧
    rget (process1099DocumentPure "FORM_1099_INT" emptyRec) "payerName" = some (.str "") :=
  ⟨(C8_typed_wrappers_defaults emptyRec "FORM_1099_INT").1.2.2.2.1 "wages" (by decide) rfl,
   (C8_typed_wrappers_defaults emptyRec "FORM_1099_INT").2.2.2.1 "payerName" (by decide) rfl⟩

/-! ### Claim C9 -/

/-- C9: the Amount Normalizer maps "$1,234.56" to 1234.56, "abc" to 0,
    the number 42 to itself, and undefined to 0; in general a number is
    returned unchanged, a cleaned string that fails to parse normalizes
    to 0, a cleaned string that parses yields the parsed number, and any
    other defined shape normalizes to 0. -/
theorem C9_amount_normalizer :
    parseAmount (some (.str "$1,234.56")) = .fin (mkRat 123456 100) ∧
    parseAmount (some (.str "abc")) = .fin 0 ∧
    parseAmount (some (.num (.fin 42))) = .fin 42 ∧
    parseAmount none = .fin 0 ∧
    (∀ n : JNum, parseAmount (some (.num n)) = n) ∧
    (∀ s : String, parseFloatJS (cleanAmount s) = .nan →
      parseAmount (some (.str s)) = .fin 0) ∧
    (∀ s : String, (parseFloatJS (cleanAmount s)).isNaN = false →
      parseAmount (some (.str s)) = parseFloatJS (cleanAmount s)) ∧
    (∀ b : Bool, parseAmount (some (.other b)) = .fin 0) := by
  refine ⟨by decide, by decide, by decide, rfl, fun n => rfl, ?_, ?_, fun b => rfl⟩
  · intro s h
    simp [parseAmount, parseAmountV, h, JNum.isNaN]
  · intro s h
    simp [parseAmount, parseAmountV, h]

/-- C9 witness: the general clauses at concrete strings. -/
theorem C9_witness :
    parseAmount (some (.str "xyz")) = .fin 0 ∧
    parseAmount (some (.str "7.5")) = parseFloatJS (cleanAmount "7.5") :=
  ⟨C9_amount_normalizer.2.2.2.2.2.1 "xyz" (by decide),
   C9_amount_normalizer.2.2.2.2.2.2.1 "7.5" (by decide)⟩
